import Mathlib

/-!
# The QR dispatch layer of Octave (`libinterp/dldfcn/qr.cc`)

A shallow embedding of the argument handling of the built-in functions `qr`,
`qrupdate`, `qrinsert`, `qrdelete` and `qrshift`, followed by three small
pieces of the runtime: the integer conversions `uint8` and `uint32`, the
signal check `octave_quit` of `quit.h` and `octave_set_default_fpucw`.

`qr.cc` is boundary code: it inspects its arguments through the query
interface of `octave_value`, chooses a matrix class and a factorization
mode, constructs a factorization object and packages parts of it into the
list of return values.  The numerical work happens in classes that live
elsewhere (`qr<T>`, `qrp<T>`, `sparse_qr<T>`, LAPACK); here they appear as
symbolic terms, so that a result of the embedding records exactly which
object was constructed from which argument and which accessor produced each
returned value.

* an `octave_value` is the record of answers it gives to the queries made
  by `qr.cc`;
* value conversions (`matrix_value ()` and friends) and the constructors of
  the factorization classes are total symbolic operations;
* the functions of other translation units that influence control flow
  (`empty_arg`, `MT::is_square`, `qr<T>::regular`) are fields of `lib`, and
  every general theorem quantifies over them;
* the update engine (`qr<T> fact (Q, R)` and the member functions `update`,
  `insert_col`, `insert_row`, `delete_col`, `delete_row`, `shift_cols`) is
  symbolic as well: a call records the object constructed and the operation
  invoked with its operands, and the field `liboctave_error` of `lib` says
  whether the engine itself stops with an error;
* `octave_idx_type` is a signed integer type of fixed width (32 bits unless
  Octave is built for 64-bit indices); the width is a field of `lib`, and the
  expressions `j - one` and `i-1` are evaluated in it, wrapping around at the
  least value as two's-complement hardware does;
* the conversions of an index argument (`octave_idx_type_vector_value ()`,
  `idx_type_value ()`) are taken to return; their answers are fields of the
  `octave_value`.
-/

namespace Octave

/-- The answers of an `octave_value` to the queries made in `qr.cc`. The last
field is asked by no code of `qr.cc`: `integer_valued` says whether every
element of a numeric value is an integer (`x == fix (x)`). -/
structure octave_value where
  is_sparse_type : Bool := false
  is_single_type : Bool := false
  is_real_type : Bool := false
  is_complex_type : Bool := false
  is_numeric_type : Bool := false
  is_scalar_type : Bool := false
  rows : Nat := 0
  columns : Nat := 0
  int_value : Int := 0
  ndims : Nat := 2
  is_integer_type : Bool := false
  is_string : Bool := false
  string_value : String := ""
  octave_idx_type_vector_value : List Int := []
  idx_type_value : Int := 0
  integer_valued : Bool := true
  deriving DecidableEq, Repr

/-- The enumeration `qr<T>::type`. -/
inductive qr.type where
  | std
  | raw
  | economy
  deriving DecidableEq, Repr

/-- The matrix classes `qr.cc` instantiates its templates with. -/
inductive MT where
  | FloatMatrix
  | FloatComplexMatrix
  | Matrix
  | ComplexMatrix
  | SparseMatrix
  | SparseComplexMatrix
  deriving DecidableEq, Repr

/-- An operation of the update engine, recorded with its operands as the
boundary passes them: `fact.update (u, v)`, `fact.insert_col (x, j)`,
`fact.insert_row (x.row (row), j)`, `fact.delete_col (j)`,
`fact.delete_row (j)` and `fact.shift_cols (i, j)`. The indices are those the
engine receives. -/
inductive operation where
  | update (u v : octave_value)
  | insert_col (x : octave_value) (j : List Int)
  | insert_row (x : octave_value) (row : Nat) (j : Int)
  | delete_col (j : List Int)
  | delete_row (j : Int)
  | shift_cols (i j : Int)
  deriving DecidableEq, Repr

/-- A factorization object, recorded by the constructor call that made it:
`qr<T> fact (m, type)`, `qrp<T> fact (m, type)` or `sparse_qr<T> q (a)`,
where the matrix is the conversion of the given argument to class `T`;
`from_QR T Q R` is `qr<T> fact (Q, R)`, and `updated T Q R op` is that object
after the operation `op`. -/
inductive factorization where
  | qr (T : MT) (m : octave_value) (type : qr.type)
  | qrp (T : MT) (m : octave_value) (type : qr.type)
  | sparse_qr (T : MT) (a : octave_value)
  | from_QR (T : MT) (Q R : octave_value)
  | updated (T : MT) (Q R : octave_value) (op : operation)
  deriving DecidableEq, Repr

/-- A returned value, recorded by the expression that produced it.
`R fact` is `fact.R ()` as a plain matrix, `R_upper fact` is
`octave_value (R, MatrixType (MatrixType::Upper))`; `sparse_R q economy` is
`q.R (economy)` and `C q b` is `q.C (b.matrix_value ())` of a sparse
factorization. -/
inductive value where
  | Q (fact : factorization)
  | R (fact : factorization)
  | R_upper (fact : factorization)
  | P (fact : factorization)
  | Pvec (fact : factorization)
  | sparse_Q (q : factorization)
  | sparse_R (q : factorization) (economy : Bool)
  | C (q : factorization) (b : octave_value)
  deriving DecidableEq, Repr

/-- The ways a built-in function of `qr.cc` leaves through an error. -/
inductive octave_error where
  | print_usage
  | err_wrong_type_arg
  | error (msg : String)
  deriving DecidableEq, Repr

/-- What a call does besides returning: the factorization objects it
constructs, the engine operations it invokes and the warnings it issues, in
program order. -/
inductive event where
  | construct (fact : factorization)
  | warning (msg : String)
  | invoke (op : operation)
  deriving DecidableEq, Repr

/-- The result of a call: either the list `retval` or the error raised. -/
inductive result where
  | ok (retval : List value)
  | fail (e : octave_error)
  deriving DecidableEq, Repr

/-- A call of a built-in function: its events and its result. -/
structure outcome where
  events : List event
  retval : result
  deriving DecidableEq, Repr

/-- The functions of other translation units whose answers steer `qr.cc`:
`empty_arg (name, nr, nc)` of `utils.h`, `R.is_square ()` for the `R` of a
factorization and `fact.regular ()`; `liboctave_error fact` is the message
with which the constructor or the operation that produced `fact` calls the
error handler of liboctave, if it does; `octave_idx_type_bits` is the width
of the type `octave_idx_type` of the build. -/
structure lib where
  empty_arg : Nat → Nat → Int
  R_is_square : factorization → Bool
  regular : factorization → Bool
  liboctave_error : factorization → Option String := fun _ => none
  octave_idx_type_bits : Nat := 32

/-- The value of an integer in a signed two's-complement type of the given
width: the representative of `k` modulo `2^bits` between `-2^(bits-1)` and
`2^(bits-1) - 1`. -/
def octave_idx_type_wrap (bits : Nat) (k : Int) : Int :=
  (k + 2 ^ (bits - 1)) % 2 ^ bits - 2 ^ (bits - 1)

/-- The expressions `j - one`, `j(0) - one`, `i-1` and `j-1` of the update
functions: one less than an index, in `octave_idx_type`. -/
def idx_minus_one (L : lib) (k : Int) : Int :=
  octave_idx_type_wrap L.octave_idx_type_bits (k - 1)

/-- The helper `get_qr_r`: the factor `R`, tagged as upper triangular when it
is square and the factorization is regular. -/
def get_qr_r (L : lib) (fact : factorization) : value :=
  if L.R_is_square fact && L.regular fact then value.R_upper fact
  else value.R fact

/-- The helper `qr_type`: the factorization mode from the argument and
output counts. -/
def qr_type (nargin nargout : Int) : qr.type :=
  if nargout = 0 ∨ nargout = 1 then qr.type.raw
  else if nargin = 2 then qr.type.economy else qr.type.std

/-- The element `args(n)` of an argument list; a default-constructed value
outside it. -/
def elem (args : List octave_value) (n : Nat) : octave_value :=
  args.getD n {}

/-- The body of one dense branch of `qr`, for the matrix class `T`: the
`switch (nargout)` over the mode given by `qr_type`. -/
def Fqr_dense (L : lib) (T : MT) (arg : octave_value) (nargin nargout : Int) :
    outcome :=
  let type := qr_type nargin nargout
  if nargout = 0 ∨ nargout = 1 then
    let fact := factorization.qr T arg type
    ⟨[event.construct fact], result.ok [value.R fact]⟩
  else if nargout = 2 then
    let fact := factorization.qr T arg type
    ⟨[event.construct fact], result.ok [value.Q fact, get_qr_r L fact]⟩
  else
    let fact := factorization.qrp T arg type
    if type = qr.type.economy then
      ⟨[event.construct fact],
        result.ok [value.Q fact, get_qr_r L fact, value.Pvec fact]⟩
    else
      ⟨[event.construct fact],
        result.ok [value.Q fact, get_qr_r L fact, value.P fact]⟩

/-- The flag `economy` of the sparse branch of `qr`. -/
def sparse_economy (args : List octave_value) : Bool :=
  let nargin := args.length
  if nargin > 1 then
    (elem args (nargin - 1)).is_scalar_type
      && (elem args (nargin - 1)).int_value == 0
  else false

/-- The variable `have_b` of the sparse branch of `qr`: the position of the
right-hand side in the argument list, or 0 when there is none. -/
def sparse_have_b (args : List octave_value) : Nat :=
  let nargin := args.length
  if nargin > 1 then
    if (elem args (nargin - 1)).is_scalar_type
        && (elem args (nargin - 1)).int_value == 0 then
      (if nargin > 2 then 2 else 0)
    else 1
  else 0

/-- The flag `is_cmplx` of the sparse branch of `qr`. -/
def sparse_is_cmplx (args : List octave_value) (arg : octave_value) : Bool :=
  let nargin := args.length
  let have_b := sparse_have_b args
  if nargin > 1 ∧ have_b > 0 ∧ (elem args have_b).is_complex_type = true then true
  else arg.is_complex_type

/-- The message of the warning of the sparse branch. -/
def warn_under_determined : String :=
  "qr: non minimum norm solution for under-determined problem"

/-- The sparse branch of `qr`. -/
def Fqr_sparse (args : List octave_value) (arg : octave_value) (nargout : Int) :
    outcome :=
  let economy := sparse_economy args
  let have_b := sparse_have_b args
  let T := if sparse_is_cmplx args arg then MT.SparseComplexMatrix else MT.SparseMatrix
  let q := factorization.sparse_qr T arg
  if have_b > 0 then
    ⟨event.construct q ::
        (if arg.rows < arg.columns then [event.warning warn_under_determined] else []),
      result.ok [value.C q (elem args have_b), value.sparse_R q economy]⟩
  else if nargout > 1 then
    ⟨[event.construct q], result.ok [value.sparse_Q q, value.sparse_R q economy]⟩
  else
    ⟨[event.construct q], result.ok [value.sparse_R q economy]⟩

/-- The built-in function `qr` (`DEFUN_DLD (qr, args, nargout, ...)`). -/
def Fqr (L : lib) (args : List octave_value) (nargout : Int) : outcome :=
  let nargin : Int := args.length
  if nargin < 1 ∨ nargin > (if (elem args 0).is_sparse_type then 3 else 2) then
    ⟨[], result.fail octave_error.print_usage⟩
  else
    let arg := elem args 0
    let arg_is_empty := L.empty_arg arg.rows arg.columns
    if arg_is_empty < 0 then ⟨[], result.ok []⟩
    else if arg.is_sparse_type then Fqr_sparse args arg nargout
    else if arg.is_single_type then
      if arg.is_real_type then Fqr_dense L MT.FloatMatrix arg nargin nargout
      else if arg.is_complex_type then
        Fqr_dense L MT.FloatComplexMatrix arg nargin nargout
      else ⟨[], result.ok []⟩
    else
      if arg.is_real_type then Fqr_dense L MT.Matrix arg nargin nargout
      else if arg.is_complex_type then
        Fqr_dense L MT.ComplexMatrix arg nargin nargout
      else ⟨[], result.fail octave_error.err_wrong_type_arg⟩

/-- The helper `check_qr_dims (q, r, allow_ecf)`. -/
def check_qr_dims (q r : octave_value) (allow_ecf : Bool) : Bool :=
  let m := q.rows
  let k := r.rows
  let n := r.columns
  (q.ndims == 2 && r.ndims == 2 && k == q.columns)
    && (m == k || (allow_ecf && k == n && decide (k < m)))

/-- The helper `check_index (i, vector_allowed)`. -/
def check_index (i : octave_value) (vector_allowed : Bool) : Bool :=
  (i.is_real_type || i.is_integer_type) && (i.is_scalar_type || vector_allowed)

/-- The matrix class of the four-way branch of an update function: the outer
test is for the real case, the inner one for single precision. -/
def update_class (real single : Bool) : MT :=
  if real then (if single then MT.FloatMatrix else MT.Matrix)
  else (if single then MT.FloatComplexMatrix else MT.ComplexMatrix)

/-- The common tail of every branch of the update functions:
`qr<T> fact (Q, R); fact.op (...); retval = ovl (fact.Q (), get_qr_r (fact))`,
left early when the engine stops with an error. -/
def apply_engine (L : lib) (T : MT) (Q R : octave_value) (op : operation) : outcome :=
  match L.liboctave_error (factorization.from_QR T Q R) with
  | some msg =>
    ⟨[event.construct (factorization.from_QR T Q R)],
      result.fail (octave_error.error msg)⟩
  | none =>
    match L.liboctave_error (factorization.updated T Q R op) with
    | some msg =>
      ⟨[event.construct (factorization.from_QR T Q R), event.invoke op],
        result.fail (octave_error.error msg)⟩
    | none =>
      ⟨[event.construct (factorization.from_QR T Q R), event.invoke op],
        result.ok [value.Q (factorization.updated T Q R op),
          get_qr_r L (factorization.updated T Q R op)]⟩

/-- The built-in function `qrupdate`. -/
def Fqrupdate (L : lib) (args : List octave_value) : outcome :=
  if args.length ≠ 4 then ⟨[], result.fail octave_error.print_usage⟩
  else
    let argq := elem args 0
    let argr := elem args 1
    let argu := elem args 2
    let argv := elem args 3
    if !argq.is_numeric_type || !argr.is_numeric_type
        || !argu.is_numeric_type || !argv.is_numeric_type then
      ⟨[], result.fail octave_error.print_usage⟩
    else if !check_qr_dims argq argr true then
      ⟨[], result.fail (octave_error.error "qrupdate: Q and R dimensions don't match")⟩
    else
      apply_engine L
        (update_class
          (argq.is_real_type && argr.is_real_type && argu.is_real_type
            && argv.is_real_type)
          (argq.is_single_type || argr.is_single_type || argu.is_single_type
            || argv.is_single_type))
        argq argr (operation.update argu argv)

/-- The built-in function `qrinsert`. The index is converted after it is
checked; the conversion is taken to return. -/
def Fqrinsert (L : lib) (args : List octave_value) : outcome :=
  let nargin := args.length
  if nargin < 4 ∨ nargin > 5 then ⟨[], result.fail octave_error.print_usage⟩
  else
    let argq := elem args 0
    let argr := elem args 1
    let argj := elem args 2
    let argx := elem args 3
    if !argq.is_numeric_type || !argr.is_numeric_type || !argx.is_numeric_type
        || (decide (nargin > 4) && !(elem args 4).is_string) then
      ⟨[], result.fail octave_error.print_usage⟩
    else
      let orient : String := if nargin < 5 then "col" else (elem args 4).string_value
      let col : Bool := decide (orient = "col")
      if !col && decide (orient ≠ "row") then
        ⟨[], result.fail
          (octave_error.error "qrinsert: ORIENT must be \"col\" or \"row\"")⟩
      else if !check_qr_dims argq argr col || (!col && decide (argx.rows ≠ 1)) then
        ⟨[], result.fail (octave_error.error "qrinsert: dimension mismatch")⟩
      else if !check_index argj col then
        ⟨[], result.fail (octave_error.error "qrinsert: invalid index J")⟩
      else
        let j := argj.octave_idx_type_vector_value
        apply_engine L
          (update_class
            (argq.is_real_type && argr.is_real_type && argx.is_real_type)
            (argq.is_single_type || argr.is_single_type || argx.is_single_type))
          argq argr
          (if col then operation.insert_col argx (j.map (idx_minus_one L))
           else operation.insert_row argx 0 (idx_minus_one L (j.headD 0)))

/-- The built-in function `qrdelete`. The index is converted before it is
checked; the conversion is taken to return. -/
def Fqrdelete (L : lib) (args : List octave_value) : outcome :=
  let nargin := args.length
  if nargin < 3 ∨ nargin > 4 then ⟨[], result.fail octave_error.print_usage⟩
  else
    let argq := elem args 0
    let argr := elem args 1
    let argj := elem args 2
    if !argq.is_numeric_type || !argr.is_numeric_type
        || (decide (nargin > 3) && !(elem args 3).is_string) then
      ⟨[], result.fail octave_error.print_usage⟩
    else
      let orient : String := if nargin < 4 then "col" else (elem args 3).string_value
      let col : Bool := decide (orient = "col")
      if !col && decide (orient ≠ "row") then
        ⟨[], result.fail
          (octave_error.error "qrdelete: ORIENT must be \"col\" or \"row\"")⟩
      else if !check_qr_dims argq argr col then
        ⟨[], result.fail (octave_error.error "qrdelete: dimension mismatch")⟩
      else
        let j := argj.octave_idx_type_vector_value
        if !check_index argj col then
          ⟨[], result.fail (octave_error.error "qrdelete: invalid index J")⟩
        else
          apply_engine L
            (update_class
              (argq.is_real_type && argr.is_real_type)
              (argq.is_single_type || argr.is_single_type))
            argq argr
            (if col then operation.delete_col (j.map (idx_minus_one L))
             else operation.delete_row (idx_minus_one L (j.headD 0)))

/-- The built-in function `qrshift`. Both indices are converted before they
are checked; the conversions are taken to return. -/
def Fqrshift (L : lib) (args : List octave_value) : outcome :=
  if args.length ≠ 4 then ⟨[], result.fail octave_error.print_usage⟩
  else
    let argq := elem args 0
    let argr := elem args 1
    let argi := elem args 2
    let argj := elem args 3
    if !argq.is_numeric_type || !argr.is_numeric_type then
      ⟨[], result.fail octave_error.print_usage⟩
    else if !check_qr_dims argq argr true then
      ⟨[], result.fail (octave_error.error "qrshift: dimensions mismatch")⟩
    else
      let i := argi.idx_type_value
      let j := argj.idx_type_value
      if !check_index argi false || !check_index argj false then
        ⟨[], result.fail (octave_error.error "qrshift: invalid index I or J")⟩
      else
        apply_engine L
          (update_class
            (argq.is_real_type && argr.is_real_type)
            (argq.is_single_type && argr.is_single_type))
          argq argr (operation.shift_cols (idx_minus_one L i) (idx_minus_one L j))

/-- The matrix class of the dense branch of `qr` that an argument of real or
complex type reaches: `is_single_type` chooses the precision, `is_real_type`
is asked before `is_complex_type`. -/
def dense_class (arg : octave_value) : MT :=
  if arg.is_single_type then
    (if arg.is_real_type then MT.FloatMatrix else MT.FloatComplexMatrix)
  else (if arg.is_real_type then MT.Matrix else MT.ComplexMatrix)

/-- Whether a 0-based index lies below `bound`. -/
def index_in_range (k : Int) (bound : Nat) : Bool :=
  decide (0 ≤ k ∧ k < bound)

/-- Modelled from the spec: the size `(M, N)` of the matrix that an operation
of the update engine, which is missing from the sources, leaves (§4.3): a
rank update and a shift keep the size, an insertion adds and a deletion
removes as many columns as there are indices, or one row. -/
def edited_size (Q R : octave_value) (op : operation) : Nat × Nat :=
  match op with
  | operation.update _ _ => (Q.rows, R.columns)
  | operation.shift_cols _ _ => (Q.rows, R.columns)
  | operation.insert_col _ j => (Q.rows, R.columns + j.length)
  | operation.delete_col j => (Q.rows, R.columns - j.length)
  | operation.insert_row _ _ _ => (Q.rows + 1, R.columns)
  | operation.delete_row _ => (Q.rows - 1, R.columns)

/-- Modelled from the spec: the failure conditions of the update engine, which
is missing from the sources (§4.3): an operand whose size does not fit the
factorized `M×N` matrix is a dimension mismatch, and an index outside the
positions of the matrix is out of range. The indices are those the engine
receives, counted from 0: a column may be inserted at `0..N` and deleted or
shifted at `0..N-1`, a row inserted at `0..M` and deleted at `0..M-1`. -/
def engine_error (Q R : octave_value) (op : operation) : Option String :=
  match op with
  | operation.update u v =>
    if u.rows = Q.rows ∧ v.rows = R.columns ∧ u.columns = v.columns then none
    else some "qrupdate: dimensions mismatch"
  | operation.insert_col x j =>
    if ¬ (x.rows = Q.rows ∧ x.columns = j.length) then
      some "qrinsert: dimensions mismatch"
    else if j.all (fun k => index_in_range k (R.columns + 1)) then none
    else some "qrinsert: index out of range"
  | operation.insert_row x _ j =>
    if ¬ (x.columns = R.columns) then some "qrinsert: dimensions mismatch"
    else if index_in_range j (Q.rows + 1) then none
    else some "qrinsert: index out of range"
  | operation.delete_col j =>
    if j.all (fun k => index_in_range k R.columns) then none
    else some "qrdelete: index out of range"
  | operation.delete_row j =>
    if index_in_range j Q.rows then none
    else some "qrdelete: index out of range"
  | operation.shift_cols i j =>
    if index_in_range i R.columns && index_in_range j R.columns then none
    else some "qrshift: index out of range"

/-- Modelled from the spec: the library functions missing from the sources
(`empty_arg` of `utils.cc`, `is_square` and `regular` of the factorization
classes, the error handling of the update engine), as one concrete instance
on which the dispatch can be evaluated. An empty argument is not an error
(§4.1); the `R` of an `M×N` matrix is `M×N` in full and raw mode and
`min(M,N)×N` in economy mode (§3), also for the matrix an update leaves,
where the factorization is full when `Q` is square; every dense factorization
counts as regular; the update engine fails as `engine_error` says (§4.3); and
`octave_idx_type` has the 32 bits of the default build. -/
def lib_std : lib where
  empty_arg := fun nr nc => if nr = 0 ∨ nc = 0 then 1 else 0
  R_is_square := fun fact =>
    match fact with
    | factorization.qr _ m qr.type.economy => decide (min m.rows m.columns = m.columns)
    | factorization.qrp _ m qr.type.economy => decide (min m.rows m.columns = m.columns)
    | factorization.qr _ m _ => decide (m.rows = m.columns)
    | factorization.qrp _ m _ => decide (m.rows = m.columns)
    | factorization.sparse_qr _ _ => false
    | factorization.from_QR _ _ R => decide (R.rows = R.columns)
    | factorization.updated _ Q R op =>
      if Q.rows = Q.columns then
        decide ((edited_size Q R op).1 = (edited_size Q R op).2)
      else
        decide (min (edited_size Q R op).1 (edited_size Q R op).2
          = (edited_size Q R op).2)
  regular := fun fact =>
    match fact with
    | factorization.sparse_qr _ _ => false
    | _ => true
  liboctave_error := fun fact =>
    match fact with
    | factorization.updated _ Q R op => engine_error Q R op
    | _ => none

/-- A full double-precision real matrix with the given dimensions, such as
`[0, 2, 1; 2, 1, 2]` for `real_matrix 2 3`. -/
def real_matrix (nr nc : Nat) : octave_value :=
  { is_real_type := true, is_numeric_type := true, rows := nr, columns := nc }

/-- A double-precision real scalar holding the integer `n`. -/
def real_scalar (n : Int) : octave_value :=
  { is_real_type := true, is_numeric_type := true, is_scalar_type := true,
    rows := 1, columns := 1, int_value := n }

/-- The answers of a value that reports single precision and neither a real
nor a complex type. -/
def single_untyped (nr nc : Nat) : octave_value :=
  { is_single_type := true, rows := nr, columns := nc }

/-- A full logical (bool) matrix, as `octave_bool_matrix` answers the queries:
of real type, and not numeric. -/
def bool_matrix (nr nc : Nat) : octave_value :=
  { is_real_type := true, is_numeric_type := false, rows := nr, columns := nc }

/-- A cell array: a full value that is of neither real nor complex type and
not numeric. -/
def cell_array (nr nc : Nat) : octave_value :=
  { rows := nr, columns := nc }

/-- Whether a matrix class is one of the single-precision classes. -/
def MT.is_single_class : MT → Bool
  | MT.FloatMatrix => true
  | MT.FloatComplexMatrix => true
  | _ => false

/-- Whether a matrix class is one of the real classes. -/
def MT.is_real_class : MT → Bool
  | MT.FloatMatrix => true
  | MT.Matrix => true
  | MT.SparseMatrix => true
  | _ => false

/-- A sparse double-precision real matrix with the given dimensions. -/
def sparse_matrix (nr nc : Nat) : octave_value :=
  { is_sparse_type := true, is_real_type := true, is_numeric_type := true,
    rows := nr, columns := nc }

/-- A full single-precision real matrix with the given dimensions. -/
def single_matrix (nr nc : Nat) : octave_value :=
  { is_single_type := true, is_real_type := true, is_numeric_type := true,
    rows := nr, columns := nc }

/-- A full double-precision complex matrix with the given dimensions. -/
def complex_matrix (nr nc : Nat) : octave_value :=
  { is_complex_type := true, is_numeric_type := true, rows := nr, columns := nc }

/-! ### Integer conversions (`ov-uint8.cc`, `ov-uint32.cc`) -/

/-- Modelled from the spec: the rounding of the conversion of a real value to
an integer type, which is part of `octave_int` and missing from the sources:
the nearest integer, a tie going away from zero. -/
def octave_int_round (x : ℚ) : Int :=
  if 0 ≤ x then Rat.floor (x + 1 / 2) else - Rat.floor (-x + 1 / 2)

/-- Modelled from the spec: the body `OCTAVE_TYPE_CONV_BODY` of the built-in
conversions to an unsigned type of `N` bits (`ov-type-conv.h` and the
saturating conversion of `octave_int`, both missing from the sources): the
value is rounded to the nearest integer and saturated to the range of the
type, from 0 to `2^N - 1`. -/
def octave_uint_convert (N : Nat) (x : ℚ) : Nat :=
  if octave_int_round x < 0 then 0
  else if octave_int_round x > 2 ^ N - 1 then 2 ^ N - 1
  else (octave_int_round x).toNat

/-- A scalar of an integer class: the name of the class and the value. -/
structure octave_int_scalar where
  class_name : String
  value : Nat
  deriving DecidableEq, Repr

/-- The built-in function `uint8` on a real scalar. -/
def Fuint8 (x : ℚ) : octave_int_scalar :=
  ⟨"uint8", octave_uint_convert 8 x⟩

/-- The built-in function `uint32` on a real scalar. -/
def Fuint32 (x : ℚ) : octave_int_scalar :=
  ⟨"uint32", octave_uint_convert 32 x⟩

/-! ### The signal check (`quit.h`) -/

/-- The program state seen by `octave_quit`: the flag `octave_signal_caught`
and everything else. -/
structure signal_state (σ : Type) where
  octave_signal_caught : Int
  rest : σ

/-- What a run of `octave_quit` does: how often `octave_handle_signal` is
invoked, and the state at the normal return (none when the handler leaves by
an exception). -/
structure quit_run (σ : Type) where
  handled : Nat
  final : Option (signal_state σ)

/-- The inline function `octave_quit` of the C++ branch of `quit.h`; the
function `octave_handle_signal`, declared there and defined elsewhere, is a
parameter. -/
def octave_quit {σ : Type}
    (octave_handle_signal : signal_state σ → Option (signal_state σ))
    (s : signal_state σ) : quit_run σ :=
  if s.octave_signal_caught ≠ 0 then
    ⟨1, octave_handle_signal { s with octave_signal_caught := 0 }⟩
  else ⟨0, some s⟩

/-- One pass through the body of a `do ... while (0)` statement, which runs
its body once and leaves the loop. -/
def do_while_0 {α : Type} (body : α) : α := body

/-- The macro `OCTAVE_QUIT` of the C branch of `quit.h`. -/
def OCTAVE_QUIT {σ : Type}
    (octave_handle_signal : signal_state σ → Option (signal_state σ))
    (s : signal_state σ) : quit_run σ :=
  do_while_0
    (if s.octave_signal_caught ≠ 0 then
      ⟨1, octave_handle_signal { s with octave_signal_caught := 0 }⟩
    else ⟨0, some s⟩)

/-! ### The floating-point control word (`fpucw-wrapper.c`) -/

/-- The floating-point unit as `GET_FPUCW` and `SET_FPUCW` see it: the control
word, and the words written to it so far. -/
structure fpu_state where
  cw : Nat
  written : List Nat
  deriving DecidableEq, Repr

/-- The function `octave_set_default_fpucw`; the constant `_FPU_DEFAULT` of
the platform is a parameter. -/
def octave_set_default_fpucw (_FPU_DEFAULT : Nat) (s : fpu_state) : fpu_state :=
  let cw := s.cw
  if cw ≠ _FPU_DEFAULT then
    { cw := _FPU_DEFAULT, written := s.written ++ [_FPU_DEFAULT] }
  else s

/-- The value of `_FPU_DEFAULT` that `fpucw-wrapper.c` defines on x86 when the
system headers give none. -/
def FPU_DEFAULT_x86 : Nat := 0x037f

/-- A character string, as passed for `orient`. -/
def string_arg (str : String) : octave_value :=
  { is_real_type := true, is_string := true, rows := 1, columns := str.length,
    string_value := str }

/-- A double-precision real scalar used as an index with the value `n`. -/
def index_scalar (n : Int) : octave_value :=
  { is_real_type := true, is_numeric_type := true, is_scalar_type := true,
    rows := 1, columns := 1, int_value := n, idx_type_value := n,
    octave_idx_type_vector_value := [n] }

/-- A double-precision real row vector of indices. -/
def index_vector (l : List Int) : octave_value :=
  { is_real_type := true, is_numeric_type := true, rows := 1, columns := l.length,
    int_value := l.headD 0, idx_type_value := l.headD 0,
    octave_idx_type_vector_value := l }

/-- A double-precision complex scalar whose real part is `n`. -/
def complex_scalar (n : Int) : octave_value :=
  { is_complex_type := true, is_numeric_type := true, is_scalar_type := true,
    rows := 1, columns := 1, int_value := n, idx_type_value := n,
    octave_idx_type_vector_value := [n] }

/-! ## Mode selection -/

/-- C5: for every argument count and requested output count, `qr_type`
selects raw mode when `nargout` is 0 or 1 (whatever `nargin` is), otherwise
economy mode when `nargin` is exactly 2, otherwise std (full) mode. -/
theorem qr_type_selects_mode (nargin nargout : Int) :
    ((nargout = 0 ∨ nargout = 1) → qr_type nargin nargout = qr.type.raw) ∧
    (¬ (nargout = 0 ∨ nargout = 1) → nargin = 2 →
      qr_type nargin nargout = qr.type.economy) ∧
    (¬ (nargout = 0 ∨ nargout = 1) → nargin ≠ 2 →
      qr_type nargin nargout = qr.type.std) := by
  unfold qr_type
  refine ⟨fun h => by simp [h], fun h h2 => by simp [h, h2], fun h h2 => by simp [h, h2]⟩

/-- C5 at concrete counts: one output with two arguments is raw, two outputs
with two arguments is economy, three outputs with one argument is std. -/
theorem qr_type_selects_mode_witness :
    qr_type 2 1 = qr.type.raw ∧ qr_type 2 2 = qr.type.economy ∧
      qr_type 1 3 = qr.type.std :=
  ⟨(qr_type_selects_mode 2 1).1 (Or.inr rfl),
   (qr_type_selects_mode 2 2).2.1 (by decide) rfl,
   (qr_type_selects_mode 1 3).2.2 (by decide) (by decide)⟩

/-! ## Dense dispatch -/

/-- For a dense argument that passes the count and empty checks, `qr` is the
`switch (nargout)` of the branch its precision and type flags select. -/
theorem Fqr_dense_eq (L : lib) (arg : octave_value) (rest : List octave_value)
    (nargout : Int) (hcount : (arg :: rest).length ≤ 2)
    (hdense : arg.is_sparse_type = false)
    (hnum : arg.is_real_type = true ∨ arg.is_complex_type = true)
    (hempty : 0 ≤ L.empty_arg arg.rows arg.columns) :
    Fqr L (arg :: rest) nargout =
      Fqr_dense L
        (dense_class arg) arg ((arg :: rest).length : Int) nargout := by
  have h1 : ¬ ((((arg :: rest).length : Nat) : Int) < 1) := by
    simp only [List.length_cons]; omega
  have h2 : ¬ ((((arg :: rest).length : Nat) : Int) > 2) := by omega
  have h3 : ¬ (L.empty_arg arg.rows arg.columns < 0) := by omega
  unfold Fqr dense_class
  simp only [elem, List.getD_cons_zero, hdense, Bool.false_eq_true, if_false, h1, h2,
    h3, or_self]
  rcases hnum with h | h
  · cases hs : arg.is_single_type <;> simp [h]
  · cases hs : arg.is_single_type <;> cases hr : arg.is_real_type <;> simp [h]

/-- C6: for every dense real or complex argument that passes the argument
checks, `qr` returns exactly one value `R` of the unpivoted factorizer for 0
or 1 requested outputs, exactly `(Q, R)` of the unpivoted factorizer for 2,
and exactly `(Q, R, P)` of the pivoted factorizer for 3 or more, where `P`
is the permutation vector `Pvec` if the mode is economy and the permutation
matrix otherwise. In each case the one factorization named is the only
object constructed. -/
theorem Fqr_dense_outputs (L : lib) (arg : octave_value) (rest : List octave_value)
    (nargout : Int) (hcount : (arg :: rest).length ≤ 2)
    (hdense : arg.is_sparse_type = false)
    (hnum : arg.is_real_type = true ∨ arg.is_complex_type = true)
    (hempty : 0 ≤ L.empty_arg arg.rows arg.columns) :
    ∃ T : MT, T = dense_class arg ∧
      ((nargout = 0 ∨ nargout = 1) →
        Fqr L (arg :: rest) nargout =
          ⟨[event.construct (factorization.qr T arg qr.type.raw)],
            result.ok [value.R (factorization.qr T arg qr.type.raw)]⟩) ∧
      (nargout = 2 →
        ∃ fact, fact = factorization.qr T arg (qr_type (arg :: rest).length nargout) ∧
          Fqr L (arg :: rest) nargout =
            ⟨[event.construct fact], result.ok [value.Q fact, get_qr_r L fact]⟩) ∧
      (3 ≤ nargout →
        ∃ fact, fact = factorization.qrp T arg (qr_type (arg :: rest).length nargout) ∧
          Fqr L (arg :: rest) nargout =
            ⟨[event.construct fact],
              result.ok [value.Q fact, get_qr_r L fact,
                if qr_type (arg :: rest).length nargout = qr.type.economy
                then value.Pvec fact else value.P fact]⟩) := by
  refine ⟨_, rfl, ?_, ?_, ?_⟩
  · intro h
    rw [Fqr_dense_eq L arg rest nargout hcount hdense hnum hempty]
    simp [Fqr_dense, qr_type, h]
  · intro h
    refine ⟨_, rfl, ?_⟩
    rw [Fqr_dense_eq L arg rest nargout hcount hdense hnum hempty]
    subst h
    simp [Fqr_dense]
  · intro h
    refine ⟨_, rfl, ?_⟩
    rw [Fqr_dense_eq L arg rest nargout hcount hdense hnum hempty]
    have h0 : ¬ (nargout = 0 ∨ nargout = 1) := by omega
    have h2 : ¬ (nargout = 2) := by omega
    simp only [Fqr_dense, h0, h2, if_false]
    split <;> rfl

/-- C6 at the arguments of the test block of `qr.cc`: `[q, r, p] = qr (a, 0)`
for the 2×3 matrix `a` returns `Q`, `R` and the permutation vector of one
pivoted economy factorization. -/
theorem Fqr_dense_outputs_witness :
    Fqr lib_std [real_matrix 2 3, real_scalar 0] 3 =
      ⟨[event.construct
          (factorization.qrp MT.Matrix (real_matrix 2 3) qr.type.economy)],
        result.ok
          [value.Q (factorization.qrp MT.Matrix (real_matrix 2 3) qr.type.economy),
           value.R (factorization.qrp MT.Matrix (real_matrix 2 3) qr.type.economy),
           value.Pvec (factorization.qrp MT.Matrix (real_matrix 2 3) qr.type.economy)]⟩ := by
  obtain ⟨T, hT, -, -, h3⟩ :=
    Fqr_dense_outputs lib_std (real_matrix 2 3) [real_scalar 0] 3 (by decide) rfl
      (Or.inl rfl) (by decide)
  obtain ⟨fact, hfact, h⟩ := h3 (by decide)
  rw [h, hfact, hT]
  decide

/-- For a dense argument and two or more requested outputs the mode of the
factorization constructed depends on the number of arguments alone: any
second argument, whatever its value, gives economy mode. -/
theorem Fqr_dense_mode_of_count (L : lib) (arg second : octave_value)
    (nargout : Int) (hout : 2 ≤ nargout) (hdense : arg.is_sparse_type = false)
    (hnum : arg.is_real_type = true ∨ arg.is_complex_type = true)
    (hempty : 0 ≤ L.empty_arg arg.rows arg.columns) :
    ∃ T : MT,
      (Fqr L [arg, second] nargout).events =
          [event.construct (factorization.qr T arg qr.type.economy)] ∨
      (Fqr L [arg, second] nargout).events =
          [event.construct (factorization.qrp T arg qr.type.economy)] := by
  refine ⟨dense_class arg, ?_⟩
  rw [Fqr_dense_eq L arg [second] nargout (by simp) hdense hnum hempty]
  have h0 : ¬ (nargout = 0 ∨ nargout = 1) := by omega
  by_cases h2 : nargout = 2
  · left
    subst h2
    simp [Fqr_dense, qr_type]
  · right
    simp [Fqr_dense, qr_type, h0, h2]

/-- C7: `[q, r] = qr (a, 1)` for a dense 3×2 matrix `a` constructs the
economy-mode factorization and returns its `Q` and (square, tagged) `R`,
although the second argument is the scalar 1 and not the scalar 0: the dense
branch never inspects the second argument. -/
theorem Fqr_dense_second_arg_one_is_economy :
    Fqr lib_std [real_matrix 3 2, real_scalar 1] 2 =
      ⟨[event.construct
          (factorization.qr MT.Matrix (real_matrix 3 2) qr.type.economy)],
        result.ok
          [value.Q (factorization.qr MT.Matrix (real_matrix 3 2) qr.type.economy),
           value.R_upper
             (factorization.qr MT.Matrix (real_matrix 3 2) qr.type.economy)]⟩ := by
  decide

/-- C8, as stated, fails: `r = qr (a)` for the dense 2×2 matrix
`a = [1, 2; 3, 4]` has a square `R` of a regular factorization, and the value
returned is the plain `fact.R ()`, not the one tagged as upper triangular. -/
theorem Fqr_raw_R_not_tagged_counterexample :
    lib_std.R_is_square (factorization.qr MT.Matrix (real_matrix 2 2) qr.type.raw) = true ∧
    lib_std.regular (factorization.qr MT.Matrix (real_matrix 2 2) qr.type.raw) = true ∧
    (Fqr lib_std [real_matrix 2 2] 1).retval =
      result.ok [value.R (factorization.qr MT.Matrix (real_matrix 2 2) qr.type.raw)] ∧
    (Fqr lib_std [real_matrix 2 2] 1).retval ≠
      result.ok [value.R_upper (factorization.qr MT.Matrix (real_matrix 2 2) qr.type.raw)] := by
  decide

/-- C8, amended: for dense input with 0 or 1 requested outputs the single
value returned by `qr` is the raw-mode `R` as the plain matrix `fact.R ()`;
it never carries the upper-triangular tag, whether or not `R` is square.
The tag is given by `get_qr_r`, which the forms with two or more outputs
apply to their `R`: there `R` is tagged exactly when it is square and the
factorization regular. -/
theorem Fqr_raw_R_plain (L : lib) (arg : octave_value) (rest : List octave_value)
    (hcount : (arg :: rest).length ≤ 2) (hdense : arg.is_sparse_type = false)
    (hnum : arg.is_real_type = true ∨ arg.is_complex_type = true)
    (hempty : 0 ≤ L.empty_arg arg.rows arg.columns) :
    ∃ T : MT, T = dense_class arg ∧
      (∀ nargout : Int, nargout = 0 ∨ nargout = 1 →
        (Fqr L (arg :: rest) nargout).retval =
            result.ok [value.R (factorization.qr T arg qr.type.raw)] ∧
        ∀ fact, (Fqr L (arg :: rest) nargout).retval ≠ result.ok [value.R_upper fact]) ∧
      (∃ fact, fact = factorization.qr T arg (qr_type (arg :: rest).length 2) ∧
        (Fqr L (arg :: rest) 2).retval =
          result.ok [value.Q fact,
            if L.R_is_square fact = true ∧ L.regular fact = true
            then value.R_upper fact else value.R fact]) ∧
      (∀ nargout : Int, 3 ≤ nargout →
        ∃ fact p, fact = factorization.qrp T arg (qr_type (arg :: rest).length nargout) ∧
          (Fqr L (arg :: rest) nargout).retval =
            result.ok [value.Q fact,
              if L.R_is_square fact = true ∧ L.regular fact = true
              then value.R_upper fact else value.R fact, p]) := by
  refine ⟨_, rfl, ?_, ?_, ?_⟩
  · intro nargout h
    rw [Fqr_dense_eq L arg rest nargout hcount hdense hnum hempty]
    simp [Fqr_dense, qr_type, h]
  · refine ⟨_, rfl, ?_⟩
    rw [Fqr_dense_eq L arg rest 2 hcount hdense hnum hempty]
    simp [Fqr_dense, get_qr_r]
  · intro nargout h
    have h0 : ¬ (nargout = 0 ∨ nargout = 1) := by omega
    have h2 : ¬ (nargout = 2) := by omega
    rw [Fqr_dense_eq L arg rest nargout hcount hdense hnum hempty]
    simp only [Fqr_dense, h0, h2, if_false]
    split
    · exact ⟨_, value.Pvec (factorization.qrp (dense_class arg) arg
        (qr_type ((arg :: rest).length : Int) nargout)), rfl, by simp [get_qr_r]⟩
    · exact ⟨_, value.P (factorization.qrp (dense_class arg) arg
        (qr_type ((arg :: rest).length : Int) nargout)), rfl, by simp [get_qr_r]⟩

/-- C8, amended, at `r = qr (a)` and `[q, r] = qr (a)` for `a = [1, 2; 3, 4]`:
the single output is the plain raw `R`, the `R` of the two-output form is
tagged. -/
theorem Fqr_raw_R_plain_witness :
    (Fqr lib_std [real_matrix 2 2] 1).retval =
      result.ok [value.R (factorization.qr MT.Matrix (real_matrix 2 2) qr.type.raw)] ∧
    (Fqr lib_std [real_matrix 2 2] 2).retval =
      result.ok [value.Q (factorization.qr MT.Matrix (real_matrix 2 2) qr.type.std),
        value.R_upper (factorization.qr MT.Matrix (real_matrix 2 2) qr.type.std)] := by
  obtain ⟨T, hT, h1, ⟨fact, hfact, h2⟩, -⟩ :=
    Fqr_raw_R_plain lib_std (real_matrix 2 2) [] (by decide) rfl (Or.inl rfl) (by decide)
  refine ⟨?_, ?_⟩
  · rw [(h1 1 (Or.inr rfl)).1, hT]
    decide
  · rw [h2, hfact, hT]
    decide

/-! ## Errors -/

/-- C9, as stated, fails, in each dispatch branch. A full logical matrix is
not numeric, yet it is of real type, which is what the double-precision
branch asks: `qr` factorizes it and raises no error. A non-sparse argument
that reports single precision and is of neither real nor complex type (and
not numeric) leaves the single-precision branch without any error: `qr`
returns the empty list of values. -/
theorem Fqr_no_type_error_counterexample :
    ((bool_matrix 2 2).is_sparse_type = false ∧
      (bool_matrix 2 2).is_numeric_type = false ∧
      Fqr lib_std [bool_matrix 2 2] 1 =
        ⟨[event.construct (factorization.qr MT.Matrix (bool_matrix 2 2) qr.type.raw)],
          result.ok [value.R (factorization.qr MT.Matrix (bool_matrix 2 2) qr.type.raw)]⟩) ∧
    ((single_untyped 2 2).is_sparse_type = false ∧
      (single_untyped 2 2).is_numeric_type = false ∧
      (single_untyped 2 2).is_real_type = false ∧
      (single_untyped 2 2).is_complex_type = false ∧
      Fqr lib_std [single_untyped 2 2] 1 = ⟨[], result.ok []⟩ ∧
      (Fqr lib_std [single_untyped 2 2] 1).retval ≠
        result.fail octave_error.err_wrong_type_arg) := by
  decide

/-- The single-precision branch of `qr` has no type error: a non-sparse
argument that reports single precision and is of neither real nor complex
type gives the empty list of values. -/
theorem Fqr_single_untyped (L : lib) (arg : octave_value) (rest : List octave_value)
    (nargout : Int) (hcount : (arg :: rest).length ≤ 2)
    (hdense : arg.is_sparse_type = false) (hsingle : arg.is_single_type = true)
    (hreal : arg.is_real_type = false) (hcplx : arg.is_complex_type = false)
    (hempty : 0 ≤ L.empty_arg arg.rows arg.columns) :
    Fqr L (arg :: rest) nargout = ⟨[], result.ok []⟩ := by
  have h1 : ¬ ((((arg :: rest).length : Nat) : Int) < 1) := by
    simp only [List.length_cons]; omega
  have h2 : ¬ ((((arg :: rest).length : Nat) : Int) > 2) := by omega
  have h3 : ¬ (L.empty_arg arg.rows arg.columns < 0) := by omega
  unfold Fqr
  simp only [elem, List.getD_cons_zero, hdense, hreal, hcplx, hsingle, Bool.false_eq_true,
    if_false, if_true, h1, h2, h3, or_self]

/-- C9, amended: for every non-sparse first argument of neither real nor
complex type that passes the count and empty checks, `qr` fails in the
double-precision dispatch branch with the wrong-type-argument error, having
constructed no factorization and returning none. -/
theorem Fqr_wrong_type_arg (L : lib) (arg : octave_value) (rest : List octave_value)
    (nargout : Int) (hcount : (arg :: rest).length ≤ 2)
    (hdense : arg.is_sparse_type = false) (hdouble : arg.is_single_type = false)
    (hreal : arg.is_real_type = false) (hcplx : arg.is_complex_type = false)
    (hempty : 0 ≤ L.empty_arg arg.rows arg.columns) :
    Fqr L (arg :: rest) nargout = ⟨[], result.fail octave_error.err_wrong_type_arg⟩ := by
  have h1 : ¬ ((((arg :: rest).length : Nat) : Int) < 1) := by
    simp only [List.length_cons]; omega
  have h2 : ¬ ((((arg :: rest).length : Nat) : Int) > 2) := by omega
  have h3 : ¬ (L.empty_arg arg.rows arg.columns < 0) := by omega
  unfold Fqr
  simp only [elem, List.getD_cons_zero, hdense, hreal, hcplx, hdouble, Bool.false_eq_true,
    if_false, h1, h2, h3, or_self]

/-- C9, amended, at `qr (c)` and `qr (c, 0)` for a 1×2 cell array `c`. -/
theorem Fqr_wrong_type_arg_witness :
    Fqr lib_std [cell_array 1 2] 1 = ⟨[], result.fail octave_error.err_wrong_type_arg⟩ ∧
    Fqr lib_std [cell_array 1 2, real_scalar 0] 2 =
      ⟨[], result.fail octave_error.err_wrong_type_arg⟩ :=
  ⟨Fqr_wrong_type_arg lib_std (cell_array 1 2) [] 1 (by decide) rfl rfl rfl rfl
      (by decide),
   Fqr_wrong_type_arg lib_std (cell_array 1 2) [real_scalar 0] 2 (by decide) rfl rfl rfl rfl
      (by decide)⟩

/-- The dense `switch` never leaves through the usage error. -/
theorem Fqr_dense_not_usage (L : lib) (T : MT) (arg : octave_value)
    (nargin nargout : Int) :
    (Fqr_dense L T arg nargin nargout).retval ≠ result.fail octave_error.print_usage := by
  unfold Fqr_dense
  simp only
  split_ifs <;> simp

/-- The sparse branch never leaves through the usage error. -/
theorem Fqr_sparse_not_usage (args : List octave_value) (arg : octave_value)
    (nargout : Int) :
    (Fqr_sparse args arg nargout).retval ≠ result.fail octave_error.print_usage := by
  unfold Fqr_sparse
  simp only
  split_ifs <;> simp

/-- The usage error of `qr` is raised by the argument-count check and nowhere
else. -/
theorem Fqr_usage_iff_count (L : lib) (args : List octave_value) (nargout : Int) :
    (Fqr L args nargout).retval = result.fail octave_error.print_usage ↔
      ((args.length : Int) < 1 ∨
        (args.length : Int) > (if (elem args 0).is_sparse_type then 3 else 2)) := by
  constructor
  · intro h
    by_contra hc
    unfold Fqr at h
    simp only [hc, if_false] at h
    split_ifs at h
    all_goals
      first
        | exact Fqr_sparse_not_usage _ _ _ h
        | exact Fqr_dense_not_usage _ _ _ _ _ h
        | exact absurd h (by simp)
  · intro h
    unfold Fqr
    simp only [h, if_true]

/-- C10: `qr` raises the usage error if and only if it is called with no
argument, with more than 2 arguments when the first is dense, or with more
than 3 arguments when the first is sparse; the error is raised before any
factorization object is constructed; in particular `qr ()` and
`qr ([1, 2; 3, 4], 0, 2)` are usage errors. -/
theorem Fqr_usage_error_iff (L : lib) (args : List octave_value) (nargout : Int) :
    ((Fqr L args nargout).retval = result.fail octave_error.print_usage ↔
      (args = [] ∨
       (∃ arg rest, args = arg :: rest ∧ arg.is_sparse_type = false ∧ 2 < args.length) ∨
       (∃ arg rest, args = arg :: rest ∧ arg.is_sparse_type = true ∧ 3 < args.length))) ∧
    ((Fqr L args nargout).retval = result.fail octave_error.print_usage →
      (Fqr L args nargout).events = []) ∧
    Fqr L [] nargout = ⟨[], result.fail octave_error.print_usage⟩ ∧
    Fqr L [real_matrix 2 2, real_scalar 0, real_scalar 2] nargout =
      ⟨[], result.fail octave_error.print_usage⟩ := by
  refine ⟨?_, ?_, ?_, ?_⟩
  · rw [Fqr_usage_iff_count]
    cases args with
    | nil => simp
    | cons arg rest =>
      cases hs : arg.is_sparse_type <;>
        simp [elem, hs] <;> omega
  · intro h
    have hc := (Fqr_usage_iff_count L args nargout).1 h
    unfold Fqr
    simp only [hc, if_true]
  · simp [Fqr]
  · simp [Fqr, elem, real_matrix]

/-! ## The update functions: validation -/

/-- A call that reaches the engine constructs the factorization object first:
its list of events is never empty. -/
theorem apply_engine_events (L : lib) (T : MT) (Q R : octave_value) (op : operation) :
    (apply_engine L T Q R op).events.head? =
      some (event.construct (factorization.from_QR T Q R)) := by
  unfold apply_engine
  cases L.liboctave_error (factorization.from_QR T Q R) with
  | some msg => rfl
  | none =>
    cases L.liboctave_error (factorization.updated T Q R op) with
    | some msg => rfl
    | none => rfl

/-- A call that reaches the engine differs from every call stopped by a
validation, which has no event. -/
theorem apply_engine_ne (L : lib) (T : MT) (Q R : octave_value) (op : operation)
    (res : result) : apply_engine L T Q R op ≠ ⟨[], res⟩ := by
  intro h
  have := apply_engine_events L T Q R op
  rw [h] at this
  simp at this

/-- A call that reaches the engine and returns values has constructed the
factorization object and invoked the one operation, in this order. -/
theorem apply_engine_ok_events (L : lib) (T : MT) (Q R : octave_value)
    (op : operation) (vals : List value)
    (h : (apply_engine L T Q R op).retval = result.ok vals) :
    (apply_engine L T Q R op).events =
      [event.construct (factorization.from_QR T Q R), event.invoke op] := by
  unfold apply_engine at h ⊢
  cases h1 : L.liboctave_error (factorization.from_QR T Q R) with
  | some msg => simp [h1] at h
  | none =>
    cases h2 : L.liboctave_error (factorization.updated T Q R op) with
    | some msg => simp [h1, h2] at h
    | none => simp

/-- The function `qrupdate` on four numeric arguments: the dimension check,
then the engine. -/
theorem Fqrupdate_eq (L : lib) (q r u v : octave_value)
    (hq : q.is_numeric_type = true) (hr : r.is_numeric_type = true)
    (hu : u.is_numeric_type = true) (hv : v.is_numeric_type = true) :
    Fqrupdate L [q, r, u, v] =
      if check_qr_dims q r true = true then
        apply_engine L
          (update_class
            (q.is_real_type && r.is_real_type && u.is_real_type && v.is_real_type)
            (q.is_single_type || r.is_single_type || u.is_single_type
              || v.is_single_type))
          q r (operation.update u v)
      else
        ⟨[], result.fail
          (octave_error.error "qrupdate: Q and R dimensions don't match")⟩ := by
  cases hd : check_qr_dims q r true <;>
    simp [Fqrupdate, elem, hq, hr, hu, hv, hd]

/-- The function `qrshift` on four arguments of which `Q` and `R` are
numeric: the dimension check, the index check, then the engine. -/
theorem Fqrshift_eq (L : lib) (q r i j : octave_value)
    (hq : q.is_numeric_type = true) (hr : r.is_numeric_type = true) :
    Fqrshift L [q, r, i, j] =
      if check_qr_dims q r true = true then
        if check_index i false = true ∧ check_index j false = true then
          apply_engine L
            (update_class (q.is_real_type && r.is_real_type)
              (q.is_single_type && r.is_single_type))
            q r (operation.shift_cols (idx_minus_one L i.idx_type_value)
              (idx_minus_one L j.idx_type_value))
        else
          ⟨[], result.fail (octave_error.error "qrshift: invalid index I or J")⟩
      else
        ⟨[], result.fail (octave_error.error "qrshift: dimensions mismatch")⟩ := by
  cases hd : check_qr_dims q r true <;> cases hi : check_index i false <;>
    cases hj : check_index j false <;>
    simp [Fqrshift, elem, hq, hr, hd, hi, hj]

/-- The column form of `qrinsert` (no `orient` argument) on numeric `Q`, `R`
and `x`: the dimension check with economized factorizations allowed, the
index check with vectors allowed, then `insert_col`. -/
theorem Fqrinsert_col_eq (L : lib) (q r j x : octave_value)
    (hq : q.is_numeric_type = true) (hr : r.is_numeric_type = true)
    (hx : x.is_numeric_type = true) :
    Fqrinsert L [q, r, j, x] =
      if check_qr_dims q r true = true then
        if check_index j true = true then
          apply_engine L
            (update_class (q.is_real_type && r.is_real_type && x.is_real_type)
              (q.is_single_type || r.is_single_type || x.is_single_type))
            q r
            (operation.insert_col x
              (j.octave_idx_type_vector_value.map (idx_minus_one L)))
        else ⟨[], result.fail (octave_error.error "qrinsert: invalid index J")⟩
      else ⟨[], result.fail (octave_error.error "qrinsert: dimension mismatch")⟩ := by
  cases hd : check_qr_dims q r true <;> cases hi : check_index j true <;>
    simp [Fqrinsert, elem, hq, hr, hx, hd, hi]

/-- The row form of `qrinsert` (`orient` is the string "row") on numeric `Q`,
`R` and `x`: the dimension check for full factorizations and a one-row `x`,
the index check for a scalar, then `insert_row`. -/
theorem Fqrinsert_row_eq (L : lib) (q r j x o : octave_value)
    (hq : q.is_numeric_type = true) (hr : r.is_numeric_type = true)
    (hx : x.is_numeric_type = true) (ho : o.is_string = true)
    (hrow : o.string_value = "row") :
    Fqrinsert L [q, r, j, x, o] =
      if check_qr_dims q r false = true ∧ x.rows = 1 then
        if check_index j false = true then
          apply_engine L
            (update_class (q.is_real_type && r.is_real_type && x.is_real_type)
              (q.is_single_type || r.is_single_type || x.is_single_type))
            q r
            (operation.insert_row x 0 (idx_minus_one L (j.octave_idx_type_vector_value.headD 0)))
        else ⟨[], result.fail (octave_error.error "qrinsert: invalid index J")⟩
      else ⟨[], result.fail (octave_error.error "qrinsert: dimension mismatch")⟩ := by
  cases hd : check_qr_dims q r false <;> cases hi : check_index j false <;>
    by_cases h1 : x.rows = 1 <;>
    simp [Fqrinsert, elem, hq, hr, hx, ho, hrow, hd, hi, h1]

/-- The column form of `qrdelete` (no `orient` argument) on numeric `Q` and
`R`. -/
theorem Fqrdelete_col_eq (L : lib) (q r j : octave_value)
    (hq : q.is_numeric_type = true) (hr : r.is_numeric_type = true) :
    Fqrdelete L [q, r, j] =
      if check_qr_dims q r true = true then
        if check_index j true = true then
          apply_engine L
            (update_class (q.is_real_type && r.is_real_type)
              (q.is_single_type || r.is_single_type))
            q r
            (operation.delete_col
              (j.octave_idx_type_vector_value.map (idx_minus_one L)))
        else ⟨[], result.fail (octave_error.error "qrdelete: invalid index J")⟩
      else ⟨[], result.fail (octave_error.error "qrdelete: dimension mismatch")⟩ := by
  cases hd : check_qr_dims q r true <;> cases hi : check_index j true <;>
    simp [Fqrdelete, elem, hq, hr, hd, hi]

/-- The row form of `qrdelete` (`orient` is the string "row") on numeric `Q`
and `R`. -/
theorem Fqrdelete_row_eq (L : lib) (q r j o : octave_value)
    (hq : q.is_numeric_type = true) (hr : r.is_numeric_type = true)
    (ho : o.is_string = true) (hrow : o.string_value = "row") :
    Fqrdelete L [q, r, j, o] =
      if check_qr_dims q r false = true then
        if check_index j false = true then
          apply_engine L
            (update_class (q.is_real_type && r.is_real_type)
              (q.is_single_type || r.is_single_type))
            q r
            (operation.delete_row (idx_minus_one L (j.octave_idx_type_vector_value.headD 0)))
        else ⟨[], result.fail (octave_error.error "qrdelete: invalid index J")⟩
      else ⟨[], result.fail (octave_error.error "qrdelete: dimension mismatch")⟩ := by
  cases hd : check_qr_dims q r false <;> cases hi : check_index j false <;>
    simp [Fqrdelete, elem, hq, hr, ho, hrow, hd, hi]

/-! ## The dimension check -/

/-- C15, as stated, fails: for `Q` of size 2×3 and `R` of size 3×3 both are
2-dimensional, the row count of `R` is the column count of `Q`, and `R` is
square; yet the pair does not pass `check_qr_dims` with economized
factorizations allowed, and `qrupdate` stops with its dimension error. -/
theorem check_qr_dims_wide_Q_counterexample :
    (real_matrix 2 3).ndims = 2 ∧ (real_matrix 3 3).ndims = 2 ∧
    (real_matrix 3 3).rows = (real_matrix 2 3).columns ∧
    (real_matrix 3 3).rows = (real_matrix 3 3).columns ∧
    check_qr_dims (real_matrix 2 3) (real_matrix 3 3) true = false ∧
    Fqrupdate lib_std
        [real_matrix 2 3, real_matrix 3 3, real_matrix 2 1, real_matrix 3 1] =
      ⟨[], result.fail
        (octave_error.error "qrupdate: Q and R dimensions don't match")⟩ := by
  refine ⟨rfl, rfl, rfl, rfl, by decide, ?_⟩
  rw [Fqrupdate_eq lib_std _ _ _ _ rfl rfl rfl rfl]
  rfl

/-- C15, amended: with economized factorizations allowed, a pair `(Q, R)`
passes `check_qr_dims` if and only if both are 2-dimensional, the row count
of `R` equals the column count of `Q`, and either `Q` is square or `R` is
square and `Q` has more rows than columns. This is the check of `qrupdate`,
of `qrshift` and of the column forms of `qrinsert` and `qrdelete`: on
arguments that pass the usage checks each of them stops with its dimension
error, before any other effect, exactly when the pair does not pass. -/
theorem check_qr_dims_allow_ecf (q r : octave_value) :
    (check_qr_dims q r true = true ↔
      q.ndims = 2 ∧ r.ndims = 2 ∧ r.rows = q.columns ∧
        (q.rows = q.columns ∨ (r.rows = r.columns ∧ q.columns < q.rows))) ∧
    (∀ (L : lib) (u v : octave_value), q.is_numeric_type = true →
      r.is_numeric_type = true → u.is_numeric_type = true →
      v.is_numeric_type = true →
      (Fqrupdate L [q, r, u, v] =
          ⟨[], result.fail
            (octave_error.error "qrupdate: Q and R dimensions don't match")⟩ ↔
        check_qr_dims q r true = false)) ∧
    (∀ (L : lib) (i j : octave_value), q.is_numeric_type = true →
      r.is_numeric_type = true →
      (Fqrshift L [q, r, i, j] =
          ⟨[], result.fail (octave_error.error "qrshift: dimensions mismatch")⟩ ↔
        check_qr_dims q r true = false)) ∧
    (∀ (L : lib) (j x : octave_value), q.is_numeric_type = true →
      r.is_numeric_type = true → x.is_numeric_type = true →
      (Fqrinsert L [q, r, j, x] =
          ⟨[], result.fail (octave_error.error "qrinsert: dimension mismatch")⟩ ↔
        check_qr_dims q r true = false)) ∧
    (∀ (L : lib) (j : octave_value), q.is_numeric_type = true →
      r.is_numeric_type = true →
      (Fqrdelete L [q, r, j] =
          ⟨[], result.fail (octave_error.error "qrdelete: dimension mismatch")⟩ ↔
        check_qr_dims q r true = false)) := by
  refine ⟨?_, ?_, ?_, ?_, ?_⟩
  · simp only [check_qr_dims, Bool.and_eq_true, Bool.or_eq_true, beq_iff_eq,
      decide_eq_true_eq, true_and]
    constructor
    · rintro ⟨⟨⟨h1, h2⟩, h3⟩, h4⟩
      refine ⟨h1, h2, h3, ?_⟩
      rcases h4 with h | ⟨h, h'⟩
      · left; omega
      · right; exact ⟨h, by omega⟩
    · rintro ⟨h1, h2, h3, h4⟩
      refine ⟨⟨⟨h1, h2⟩, h3⟩, ?_⟩
      rcases h4 with h | ⟨h, h'⟩
      · left; omega
      · right; exact ⟨h, by omega⟩
  · intro L u v hq hr hu hv
    rw [Fqrupdate_eq L q r u v hq hr hu hv]
    cases hd : check_qr_dims q r true
    · simp
    · simpa using apply_engine_ne L _ q r _ _
  · intro L i j hq hr
    rw [Fqrshift_eq L q r i j hq hr]
    cases hd : check_qr_dims q r true
    · simp
    · simp only [if_true]
      split
      · simpa using apply_engine_ne L _ q r _ _
      · simp
  · intro L j x hq hr hx
    rw [Fqrinsert_col_eq L q r j x hq hr hx]
    cases hd : check_qr_dims q r true
    · simp
    · simp only [if_true]
      split
      · simpa using apply_engine_ne L _ q r _ _
      · simp
  · intro L j hq hr
    rw [Fqrdelete_col_eq L q r j hq hr]
    cases hd : check_qr_dims q r true
    · simp
    · simp only [if_true]
      split
      · simpa using apply_engine_ne L _ q r _ _
      · simp

/-- C15, amended, at a full pair (`Q` 5×5, `R` 5×3), an economized pair
(`Q` 5×3, `R` 3×3) and the pair with a wide `Q` (`Q` 2×3, `R` 3×3). -/
theorem check_qr_dims_allow_ecf_witness :
    check_qr_dims (real_matrix 5 5) (real_matrix 5 3) true = true ∧
    check_qr_dims (real_matrix 5 3) (real_matrix 3 3) true = true ∧
    check_qr_dims (real_matrix 2 3) (real_matrix 3 3) true = false :=
  ⟨(check_qr_dims_allow_ecf (real_matrix 5 5) (real_matrix 5 3)).1.2
      ⟨rfl, rfl, rfl, Or.inl rfl⟩,
   (check_qr_dims_allow_ecf (real_matrix 5 3) (real_matrix 3 3)).1.2
      ⟨rfl, rfl, rfl, Or.inr ⟨rfl, by decide⟩⟩,
   ((check_qr_dims_allow_ecf (real_matrix 2 3) (real_matrix 3 3)).2.1 lib_std
      (real_matrix 2 1) (real_matrix 3 1) rfl rfl rfl rfl).1
      (by rw [Fqrupdate_eq lib_std _ _ _ _ rfl rfl rfl rfl]; rfl)⟩

/-- C16: for every pair `(Q, R)` in which `Q` is not square, `qrinsert` and
`qrdelete` with orient "row", on arguments that pass the usage checks, stop
with the dimension-mismatch error; no factorization object is constructed
from the pair and neither `insert_row` nor `delete_row` is invoked. -/
theorem row_forms_need_square_Q (L : lib) (q r j x o : octave_value)
    (hq : q.is_numeric_type = true) (hr : r.is_numeric_type = true)
    (hx : x.is_numeric_type = true) (ho : o.is_string = true)
    (hrow : o.string_value = "row") (hns : q.rows ≠ q.columns) :
    Fqrinsert L [q, r, j, x, o] =
        ⟨[], result.fail (octave_error.error "qrinsert: dimension mismatch")⟩ ∧
    Fqrdelete L [q, r, j, o] =
        ⟨[], result.fail (octave_error.error "qrdelete: dimension mismatch")⟩ := by
  have hd : check_qr_dims q r false = false := by
    simp only [check_qr_dims, Bool.false_and, Bool.or_false, Bool.and_eq_false_iff,
      beq_eq_false_iff_ne, ne_eq]
    by_cases h : r.rows = q.columns
    · right; omega
    · left; right; exact h
  constructor
  · rw [Fqrinsert_row_eq L q r j x o hq hr hx ho hrow]
    simp [hd]
  · rw [Fqrdelete_row_eq L q r j o hq hr ho hrow]
    simp [hd]

/-- C16 at an economized factorization of a 5×3 matrix (`Q` 5×3, `R` 3×3):
inserting a row before row 3 and deleting row 3 both stop with the dimension
error. -/
theorem row_forms_need_square_Q_witness :
    Fqrinsert lib_std
        [real_matrix 5 3, real_matrix 3 3, index_scalar 3, real_matrix 1 3,
          string_arg "row"] =
      ⟨[], result.fail (octave_error.error "qrinsert: dimension mismatch")⟩ ∧
    Fqrdelete lib_std
        [real_matrix 5 3, real_matrix 3 3, index_scalar 3, string_arg "row"] =
      ⟨[], result.fail (octave_error.error "qrdelete: dimension mismatch")⟩ :=
  row_forms_need_square_Q lib_std (real_matrix 5 3) (real_matrix 3 3) (index_scalar 3)
    (real_matrix 1 3) (string_arg "row") rfl rfl rfl rfl rfl (by decide)

/-! ## The operand of a row insertion -/

/-- C17: in `qrinsert` with orient "row", on arguments that pass the usage
checks, an operand `x` that does not have exactly one row stops the call
with the dimension-mismatch error; a call that returns values has invoked
`insert_row` with row 0 of `x` and nothing else of the engine; with orient
"col" the checks of this layer do not look at the shape of `x`: once the
pair and the index pass, `insert_col` is invoked for every row and column
count of `x`. -/
theorem Fqrinsert_row_operand (L : lib) (q r j x o : octave_value)
    (hq : q.is_numeric_type = true) (hr : r.is_numeric_type = true)
    (hx : x.is_numeric_type = true) (ho : o.is_string = true)
    (hrow : o.string_value = "row") :
    (x.rows ≠ 1 →
      Fqrinsert L [q, r, j, x, o] =
        ⟨[], result.fail (octave_error.error "qrinsert: dimension mismatch")⟩) ∧
    (∀ vals, (Fqrinsert L [q, r, j, x, o]).retval = result.ok vals →
      x.rows = 1 ∧
      ∃ T, (Fqrinsert L [q, r, j, x, o]).events =
        [event.construct (factorization.from_QR T q r),
          event.invoke
            (operation.insert_row x 0 (idx_minus_one L (j.octave_idx_type_vector_value.headD 0)))]) ∧
    (check_qr_dims q r true = true → check_index j true = true →
      ∀ nr nc : Nat, ∃ T,
        Fqrinsert L [q, r, j, { x with rows := nr, columns := nc }] =
          apply_engine L T q r
            (operation.insert_col { x with rows := nr, columns := nc }
              (j.octave_idx_type_vector_value.map (idx_minus_one L)))) := by
  refine ⟨?_, ?_, ?_⟩
  · intro h
    rw [Fqrinsert_row_eq L q r j x o hq hr hx ho hrow]
    simp [h]
  · intro vals
    rw [Fqrinsert_row_eq L q r j x o hq hr hx ho hrow]
    by_cases hc : check_qr_dims q r false = true ∧ x.rows = 1
    · by_cases hi : check_index j false = true
      · rw [if_pos hc, if_pos hi]
        intro h
        exact ⟨hc.2, _, apply_engine_ok_events L _ q r _ vals h⟩
      · simp [hc, hi]
    · simp [hc]
  · intro hd hi nr nc
    refine ⟨update_class (q.is_real_type && r.is_real_type && x.is_real_type)
      (q.is_single_type || r.is_single_type || x.is_single_type), ?_⟩
    have h := Fqrinsert_col_eq L q r j { x with rows := nr, columns := nc } hq hr hx
    rw [h]
    simp only [hd, hi, if_true]

/-- C17 at a full factorization of a 5×3 matrix (`Q` 5×5, `R` 5×3): a 2×3
operand is refused in the row form, and a 1×3 operand inserted before row 3
reaches `insert_row` as its row 0 with the index 2. -/
theorem Fqrinsert_row_operand_witness :
    Fqrinsert lib_std
        [real_matrix 5 5, real_matrix 5 3, index_scalar 3, real_matrix 2 3,
          string_arg "row"] =
      ⟨[], result.fail (octave_error.error "qrinsert: dimension mismatch")⟩ ∧
    (Fqrinsert lib_std
        [real_matrix 5 5, real_matrix 5 3, index_scalar 3, real_matrix 1 3,
          string_arg "row"]).events =
      [event.construct
          (factorization.from_QR MT.Matrix (real_matrix 5 5) (real_matrix 5 3)),
        event.invoke (operation.insert_row (real_matrix 1 3) 0 2)] := by
  refine ⟨(Fqrinsert_row_operand lib_std (real_matrix 5 5) (real_matrix 5 3)
      (index_scalar 3) (real_matrix 2 3) (string_arg "row") rfl rfl rfl rfl rfl).1
      (by decide), ?_⟩
  rw [Fqrinsert_row_eq lib_std _ _ _ _ _ rfl rfl rfl rfl rfl]
  rfl

/-! ## The index check -/

/-- C18: where a scalar index is required, that is in `qrinsert` and
`qrdelete` with orient "row" and for both indices of `qrshift`, a non-scalar
index is refused with the invalid-index error whenever the earlier checks
pass; with orient "col", `qrinsert` and `qrdelete` accept every index of
real or of integer type, scalar or not, and reach the engine with it. -/
theorem scalar_index_required (L : lib) (q r : octave_value)
    (hq : q.is_numeric_type = true) (hr : r.is_numeric_type = true) :
    (∀ j x o : octave_value, x.is_numeric_type = true → o.is_string = true →
      o.string_value = "row" → check_qr_dims q r false = true → x.rows = 1 →
      j.is_scalar_type = false →
      Fqrinsert L [q, r, j, x, o] =
        ⟨[], result.fail (octave_error.error "qrinsert: invalid index J")⟩) ∧
    (∀ j o : octave_value, o.is_string = true → o.string_value = "row" →
      check_qr_dims q r false = true → j.is_scalar_type = false →
      Fqrdelete L [q, r, j, o] =
        ⟨[], result.fail (octave_error.error "qrdelete: invalid index J")⟩) ∧
    (∀ i j : octave_value, check_qr_dims q r true = true →
      i.is_scalar_type = false ∨ j.is_scalar_type = false →
      Fqrshift L [q, r, i, j] =
        ⟨[], result.fail (octave_error.error "qrshift: invalid index I or J")⟩) ∧
    (∀ j x : octave_value, x.is_numeric_type = true →
      check_qr_dims q r true = true →
      j.is_real_type = true ∨ j.is_integer_type = true →
      ∃ T, Fqrinsert L [q, r, j, x] =
        apply_engine L T q r
          (operation.insert_col x
            (j.octave_idx_type_vector_value.map (idx_minus_one L)))) ∧
    (∀ j : octave_value, check_qr_dims q r true = true →
      j.is_real_type = true ∨ j.is_integer_type = true →
      ∃ T, Fqrdelete L [q, r, j] =
        apply_engine L T q r
          (operation.delete_col
            (j.octave_idx_type_vector_value.map (idx_minus_one L)))) := by
  refine ⟨?_, ?_, ?_, ?_, ?_⟩
  · intro j x o hx ho hrow hd h1 hs
    rw [Fqrinsert_row_eq L q r j x o hq hr hx ho hrow]
    simp [hd, h1, check_index, hs]
  · intro j o ho hrow hd hs
    rw [Fqrdelete_row_eq L q r j o hq hr ho hrow]
    simp [hd, check_index, hs]
  · intro i j hd hs
    rw [Fqrshift_eq L q r i j hq hr]
    rcases hs with hs | hs <;> simp [hd, check_index, hs]
  · intro j x hx hd ht
    refine ⟨update_class (q.is_real_type && r.is_real_type && x.is_real_type)
      (q.is_single_type || r.is_single_type || x.is_single_type), ?_⟩
    rw [Fqrinsert_col_eq L q r j x hq hr hx]
    rcases ht with ht | ht <;> simp [hd, check_index, ht]
  · intro j hd ht
    refine ⟨update_class (q.is_real_type && r.is_real_type)
      (q.is_single_type || r.is_single_type), ?_⟩
    rw [Fqrdelete_col_eq L q r j hq hr]
    rcases ht with ht | ht <;> simp [hd, check_index, ht]

/-- C18 at a full factorization of a 5×3 matrix: the index vector `[1, 3]`
is refused by `qrshift` and by the row form of `qrdelete`, and the column
form of `qrdelete` passes it on to `delete_col`. -/
theorem scalar_index_required_witness :
    Fqrshift lib_std
        [real_matrix 5 5, real_matrix 5 3, index_vector [1, 3], index_scalar 2] =
      ⟨[], result.fail (octave_error.error "qrshift: invalid index I or J")⟩ ∧
    Fqrdelete lib_std
        [real_matrix 5 5, real_matrix 5 3, index_vector [1, 3], string_arg "row"] =
      ⟨[], result.fail (octave_error.error "qrdelete: invalid index J")⟩ ∧
    (Fqrdelete lib_std
        [real_matrix 5 5, real_matrix 5 3, index_vector [1, 3]]).events =
      [event.construct
          (factorization.from_QR MT.Matrix (real_matrix 5 5) (real_matrix 5 3)),
        event.invoke (operation.delete_col [0, 2])] := by
  have h := scalar_index_required lib_std (real_matrix 5 5) (real_matrix 5 3) rfl rfl
  refine ⟨h.2.2.1 _ _ (by decide) (Or.inl rfl), h.2.1 _ _ rfl rfl (by decide) rfl, ?_⟩
  obtain ⟨T, hT⟩ := h.2.2.2.2 (index_vector [1, 3]) (by decide) (Or.inl rfl)
  rw [Fqrdelete_col_eq lib_std _ _ _ rfl rfl]
  rfl

/-- C20: in `qrinsert` and `qrdelete`, omitting `orient` is the same call as
passing the string "col"; the string "row" selects `insert_row` and
`delete_row`; and every other string, compared exactly, stops the call, once
the usage checks are passed, with the error that ORIENT must be "col" or
"row", whatever the dimensions and the index are. -/
theorem orient_selection (L : lib) (q r j x o : octave_value)
    (ho : o.is_string = true) :
    (o.string_value = "col" →
      Fqrinsert L [q, r, j, x, o] = Fqrinsert L [q, r, j, x] ∧
      Fqrdelete L [q, r, j, o] = Fqrdelete L [q, r, j]) ∧
    (o.string_value = "row" → q.is_numeric_type = true → r.is_numeric_type = true →
      check_qr_dims q r false = true → check_index j false = true →
      (x.is_numeric_type = true → x.rows = 1 →
        ∃ T, Fqrinsert L [q, r, j, x, o] =
          apply_engine L T q r
            (operation.insert_row x 0 (idx_minus_one L (j.octave_idx_type_vector_value.headD 0)))) ∧
      (∃ T, Fqrdelete L [q, r, j, o] =
          apply_engine L T q r
            (operation.delete_row (idx_minus_one L (j.octave_idx_type_vector_value.headD 0))))) ∧
    (o.string_value ≠ "col" → o.string_value ≠ "row" →
      q.is_numeric_type = true → r.is_numeric_type = true →
      (x.is_numeric_type = true →
        Fqrinsert L [q, r, j, x, o] =
          ⟨[], result.fail
            (octave_error.error "qrinsert: ORIENT must be \"col\" or \"row\"")⟩) ∧
      Fqrdelete L [q, r, j, o] =
        ⟨[], result.fail
          (octave_error.error "qrdelete: ORIENT must be \"col\" or \"row\"")⟩) := by
  refine ⟨?_, ?_, ?_⟩
  · intro hcol
    constructor
    · simp [Fqrinsert, elem, ho, hcol]
    · simp [Fqrdelete, elem, ho, hcol]
  · intro hrow hq hr hd hi
    constructor
    · intro hx hx1
      refine ⟨update_class (q.is_real_type && r.is_real_type && x.is_real_type)
        (q.is_single_type || r.is_single_type || x.is_single_type), ?_⟩
      rw [Fqrinsert_row_eq L q r j x o hq hr hx ho hrow]
      simp [hd, hi, hx1]
    · refine ⟨update_class (q.is_real_type && r.is_real_type)
        (q.is_single_type || r.is_single_type), ?_⟩
      rw [Fqrdelete_row_eq L q r j o hq hr ho hrow]
      simp [hd, hi]
  · intro hc hrw hq hr
    constructor
    · intro hx
      simp [Fqrinsert, elem, ho, hq, hr, hx, hc, hrw]
    · simp [Fqrdelete, elem, ho, hq, hr, hc, hrw]

/-- C20 at a full factorization of a 5×3 matrix: `qrdelete (Q, R, 2, "col")`
is `qrdelete (Q, R, 2)`, `qrdelete (Q, R, 2, "row")` invokes `delete_row`
with the index 1, and the strings "COL" and "Row" are refused. -/
theorem orient_selection_witness :
    Fqrdelete lib_std
        [real_matrix 5 5, real_matrix 5 3, index_scalar 2, string_arg "col"] =
      Fqrdelete lib_std [real_matrix 5 5, real_matrix 5 3, index_scalar 2] ∧
    (Fqrdelete lib_std
        [real_matrix 5 5, real_matrix 5 3, index_scalar 2, string_arg "row"]).events =
      [event.construct
          (factorization.from_QR MT.Matrix (real_matrix 5 5) (real_matrix 5 3)),
        event.invoke (operation.delete_row 1)] ∧
    Fqrdelete lib_std
        [real_matrix 5 5, real_matrix 5 3, index_scalar 2, string_arg "COL"] =
      ⟨[], result.fail
        (octave_error.error "qrdelete: ORIENT must be \"col\" or \"row\"")⟩ ∧
    Fqrinsert lib_std
        [real_matrix 5 5, real_matrix 5 3, index_scalar 2, real_matrix 1 3,
          string_arg "Row"] =
      ⟨[], result.fail
        (octave_error.error "qrinsert: ORIENT must be \"col\" or \"row\"")⟩ := by
  refine ⟨((orient_selection lib_std (real_matrix 5 5) (real_matrix 5 3) (index_scalar 2)
      (real_matrix 1 3) (string_arg "col") rfl).1 rfl).2, ?_,
    ((orient_selection lib_std (real_matrix 5 5) (real_matrix 5 3) (index_scalar 2)
      (real_matrix 1 3) (string_arg "COL") rfl).2.2 (by decide) (by decide) rfl rfl).2,
    ((orient_selection lib_std (real_matrix 5 5) (real_matrix 5 3) (index_scalar 2)
      (real_matrix 1 3) (string_arg "Row") rfl).2.2 (by decide) (by decide) rfl rfl).1 rfl⟩
  rw [Fqrdelete_row_eq lib_std _ _ _ _ rfl rfl rfl rfl]
  rfl

/-! ## Indices handed to the engine -/

/-- A call that reaches the engine has an event. -/
theorem apply_engine_events_ne_nil (L : lib) (T : MT) (Q R : octave_value)
    (op : operation) : (apply_engine L T Q R op).events ≠ [] := by
  intro h
  have := apply_engine_events L T Q R op
  rw [h] at this
  simp at this

/-- In `qrupdate` a call with an event has passed every validation, and a
call without event has failed with the usage or the dimension error. -/
theorem Fqrupdate_validation (L : lib) (args : List octave_value) :
    ((Fqrupdate L args).events ≠ [] →
      args.length = 4 ∧ (elem args 0).is_numeric_type = true ∧
      (elem args 1).is_numeric_type = true ∧ (elem args 2).is_numeric_type = true ∧
      (elem args 3).is_numeric_type = true ∧
      check_qr_dims (elem args 0) (elem args 1) true = true) ∧
    ((Fqrupdate L args).events = [] →
      (Fqrupdate L args).retval = result.fail octave_error.print_usage ∨
      (Fqrupdate L args).retval =
        result.fail (octave_error.error "qrupdate: Q and R dimensions don't match")) := by
  by_cases h1 : args.length = 4
  · cases hq : (elem args 0).is_numeric_type <;>
      cases hr : (elem args 1).is_numeric_type <;>
      cases hu : (elem args 2).is_numeric_type <;>
      cases hv : (elem args 3).is_numeric_type <;>
      cases hd : check_qr_dims (elem args 0) (elem args 1) true <;>
      simp [Fqrupdate, h1, hq, hr, hu, hv, hd, apply_engine_events_ne_nil]
  · simp [Fqrupdate, h1]

/-- In `qrshift` a call with an event has passed every validation, and a call
without event has failed with the usage, the dimension or the index error. -/
theorem Fqrshift_validation (L : lib) (args : List octave_value) :
    ((Fqrshift L args).events ≠ [] →
      args.length = 4 ∧ (elem args 0).is_numeric_type = true ∧
      (elem args 1).is_numeric_type = true ∧
      check_qr_dims (elem args 0) (elem args 1) true = true ∧
      check_index (elem args 2) false = true ∧
      check_index (elem args 3) false = true) ∧
    ((Fqrshift L args).events = [] →
      (Fqrshift L args).retval = result.fail octave_error.print_usage ∨
      (Fqrshift L args).retval =
        result.fail (octave_error.error "qrshift: dimensions mismatch") ∨
      (Fqrshift L args).retval =
        result.fail (octave_error.error "qrshift: invalid index I or J")) := by
  by_cases h1 : args.length = 4
  · cases hq : (elem args 0).is_numeric_type <;>
      cases hr : (elem args 1).is_numeric_type <;>
      cases hd : check_qr_dims (elem args 0) (elem args 1) true <;>
      cases hi : check_index (elem args 2) false <;>
      cases hj : check_index (elem args 3) false <;>
      simp [Fqrshift, h1, hq, hr, hd, hi, hj, apply_engine_events_ne_nil]
  · simp [Fqrshift, h1]

/-- In `qrinsert` a call with an event has passed every validation of the
column form or of the row form, and a call without event has failed with the
usage, the orientation, the dimension or the index error. -/
theorem Fqrinsert_validation (L : lib) (args : List octave_value) :
    ((Fqrinsert L args).events ≠ [] →
      (elem args 0).is_numeric_type = true ∧ (elem args 1).is_numeric_type = true ∧
      (elem args 3).is_numeric_type = true ∧
      ((args.length = 4 ∨
          (args.length = 5 ∧ (elem args 4).is_string = true ∧
            (elem args 4).string_value = "col")) ∧
        check_qr_dims (elem args 0) (elem args 1) true = true ∧
        check_index (elem args 2) true = true ∨
       (args.length = 5 ∧ (elem args 4).is_string = true ∧
          (elem args 4).string_value = "row") ∧
        check_qr_dims (elem args 0) (elem args 1) false = true ∧
        (elem args 3).rows = 1 ∧ check_index (elem args 2) false = true)) ∧
    ((Fqrinsert L args).events = [] →
      (Fqrinsert L args).retval = result.fail octave_error.print_usage ∨
      (Fqrinsert L args).retval =
        result.fail (octave_error.error "qrinsert: ORIENT must be \"col\" or \"row\"") ∨
      (Fqrinsert L args).retval =
        result.fail (octave_error.error "qrinsert: dimension mismatch") ∨
      (Fqrinsert L args).retval =
        result.fail (octave_error.error "qrinsert: invalid index J")) := by
  by_cases h4 : args.length = 4
  · cases hq : (elem args 0).is_numeric_type <;>
      cases hr : (elem args 1).is_numeric_type <;>
      cases hx : (elem args 3).is_numeric_type <;>
      cases hd : check_qr_dims (elem args 0) (elem args 1) true <;>
      cases hi : check_index (elem args 2) true <;>
      simp [Fqrinsert, h4, hq, hr, hx, hd, hi, apply_engine_events_ne_nil]
  · by_cases h5 : args.length = 5
    · by_cases hc : (elem args 4).string_value = "col"
      · cases hq : (elem args 0).is_numeric_type <;>
          cases hr : (elem args 1).is_numeric_type <;>
          cases hx : (elem args 3).is_numeric_type <;>
          cases hs : (elem args 4).is_string <;>
          cases hd : check_qr_dims (elem args 0) (elem args 1) true <;>
          cases hi : check_index (elem args 2) true <;>
          simp [Fqrinsert, h5, hq, hr, hx, hs, hc, hd, hi, apply_engine_events_ne_nil]
      · by_cases hw : (elem args 4).string_value = "row"
        · by_cases h1 : (elem args 3).rows = 1 <;>
            cases hq : (elem args 0).is_numeric_type <;>
            cases hr : (elem args 1).is_numeric_type <;>
            cases hx : (elem args 3).is_numeric_type <;>
            cases hs : (elem args 4).is_string <;>
            cases hd : check_qr_dims (elem args 0) (elem args 1) false <;>
            cases hi : check_index (elem args 2) false <;>
            simp [Fqrinsert, h5, hq, hr, hx, hs, hw, hd, hi, h1,
              apply_engine_events_ne_nil]
        · cases hq : (elem args 0).is_numeric_type <;>
            cases hr : (elem args 1).is_numeric_type <;>
            cases hx : (elem args 3).is_numeric_type <;>
            cases hs : (elem args 4).is_string <;>
            simp [Fqrinsert, h5, hq, hr, hx, hs, hc, hw]
    · have h : args.length < 4 ∨ args.length > 5 := by omega
      simp [Fqrinsert, h]

/-- In `qrdelete` a call with an event has passed every validation of the
column form or of the row form, and a call without event has failed with the
usage, the orientation, the dimension or the index error. -/
theorem Fqrdelete_validation (L : lib) (args : List octave_value) :
    ((Fqrdelete L args).events ≠ [] →
      (elem args 0).is_numeric_type = true ∧ (elem args 1).is_numeric_type = true ∧
      ((args.length = 3 ∨
          (args.length = 4 ∧ (elem args 3).is_string = true ∧
            (elem args 3).string_value = "col")) ∧
        check_qr_dims (elem args 0) (elem args 1) true = true ∧
        check_index (elem args 2) true = true ∨
       (args.length = 4 ∧ (elem args 3).is_string = true ∧
          (elem args 3).string_value = "row") ∧
        check_qr_dims (elem args 0) (elem args 1) false = true ∧
        check_index (elem args 2) false = true)) ∧
    ((Fqrdelete L args).events = [] →
      (Fqrdelete L args).retval = result.fail octave_error.print_usage ∨
      (Fqrdelete L args).retval =
        result.fail (octave_error.error "qrdelete: ORIENT must be \"col\" or \"row\"") ∨
      (Fqrdelete L args).retval =
        result.fail (octave_error.error "qrdelete: dimension mismatch") ∨
      (Fqrdelete L args).retval =
        result.fail (octave_error.error "qrdelete: invalid index J")) := by
  by_cases h3 : args.length = 3
  · cases hq : (elem args 0).is_numeric_type <;>
      cases hr : (elem args 1).is_numeric_type <;>
      cases hd : check_qr_dims (elem args 0) (elem args 1) true <;>
      cases hi : check_index (elem args 2) true <;>
      simp [Fqrdelete, h3, hq, hr, hd, hi, apply_engine_events_ne_nil]
  · by_cases h4 : args.length = 4
    · by_cases hc : (elem args 3).string_value = "col"
      · cases hq : (elem args 0).is_numeric_type <;>
          cases hr : (elem args 1).is_numeric_type <;>
          cases hs : (elem args 3).is_string <;>
          cases hd : check_qr_dims (elem args 0) (elem args 1) true <;>
          cases hi : check_index (elem args 2) true <;>
          simp [Fqrdelete, h4, hq, hr, hs, hc, hd, hi, apply_engine_events_ne_nil]
      · by_cases hw : (elem args 3).string_value = "row"
        · cases hq : (elem args 0).is_numeric_type <;>
            cases hr : (elem args 1).is_numeric_type <;>
            cases hs : (elem args 3).is_string <;>
            cases hd : check_qr_dims (elem args 0) (elem args 1) false <;>
            cases hi : check_index (elem args 2) false <;>
            simp [Fqrdelete, h4, hq, hr, hs, hw, hd, hi, apply_engine_events_ne_nil]
        · cases hq : (elem args 0).is_numeric_type <;>
            cases hr : (elem args 1).is_numeric_type <;>
            cases hs : (elem args 3).is_string <;>
            simp [Fqrdelete, h4, hq, hr, hs, hc, hw]
    · have h : args.length < 3 ∨ args.length > 4 := by omega
      simp [Fqrdelete, h]

/-- C22: in `qrupdate`, `qrinsert`, `qrdelete` and `qrshift` every validation
failure, that is a wrong argument count, a non-numeric `Q`, `R` or operand,
an `orient` that is no string or neither "col" nor "row", a dimension
mismatch or an invalid index, ends the call with one of the errors of the
validation and with no event at all: no factorization object has been
constructed from `(Q, R)` and no engine operation has been invoked, so there
is no result and no partial update. -/
theorem validation_precedes_engine (L : lib) (args : List octave_value) :
    (¬ (args.length = 4 ∧ (elem args 0).is_numeric_type = true ∧
        (elem args 1).is_numeric_type = true ∧ (elem args 2).is_numeric_type = true ∧
        (elem args 3).is_numeric_type = true ∧
        check_qr_dims (elem args 0) (elem args 1) true = true) →
      (Fqrupdate L args).events = [] ∧
      ((Fqrupdate L args).retval = result.fail octave_error.print_usage ∨
       (Fqrupdate L args).retval =
        result.fail (octave_error.error "qrupdate: Q and R dimensions don't match"))) ∧
    (¬ ((elem args 0).is_numeric_type = true ∧ (elem args 1).is_numeric_type = true ∧
        (elem args 3).is_numeric_type = true ∧
        ((args.length = 4 ∨
            (args.length = 5 ∧ (elem args 4).is_string = true ∧
              (elem args 4).string_value = "col")) ∧
          check_qr_dims (elem args 0) (elem args 1) true = true ∧
          check_index (elem args 2) true = true ∨
         (args.length = 5 ∧ (elem args 4).is_string = true ∧
            (elem args 4).string_value = "row") ∧
          check_qr_dims (elem args 0) (elem args 1) false = true ∧
          (elem args 3).rows = 1 ∧ check_index (elem args 2) false = true)) →
      (Fqrinsert L args).events = [] ∧
      ((Fqrinsert L args).retval = result.fail octave_error.print_usage ∨
       (Fqrinsert L args).retval =
        result.fail (octave_error.error "qrinsert: ORIENT must be \"col\" or \"row\"") ∨
       (Fqrinsert L args).retval =
        result.fail (octave_error.error "qrinsert: dimension mismatch") ∨
       (Fqrinsert L args).retval =
        result.fail (octave_error.error "qrinsert: invalid index J"))) ∧
    (¬ ((elem args 0).is_numeric_type = true ∧ (elem args 1).is_numeric_type = true ∧
        ((args.length = 3 ∨
            (args.length = 4 ∧ (elem args 3).is_string = true ∧
              (elem args 3).string_value = "col")) ∧
          check_qr_dims (elem args 0) (elem args 1) true = true ∧
          check_index (elem args 2) true = true ∨
         (args.length = 4 ∧ (elem args 3).is_string = true ∧
            (elem args 3).string_value = "row") ∧
          check_qr_dims (elem args 0) (elem args 1) false = true ∧
          check_index (elem args 2) false = true)) →
      (Fqrdelete L args).events = [] ∧
      ((Fqrdelete L args).retval = result.fail octave_error.print_usage ∨
       (Fqrdelete L args).retval =
        result.fail (octave_error.error "qrdelete: ORIENT must be \"col\" or \"row\"") ∨
       (Fqrdelete L args).retval =
        result.fail (octave_error.error "qrdelete: dimension mismatch") ∨
       (Fqrdelete L args).retval =
        result.fail (octave_error.error "qrdelete: invalid index J"))) ∧
    (¬ (args.length = 4 ∧ (elem args 0).is_numeric_type = true ∧
        (elem args 1).is_numeric_type = true ∧
        check_qr_dims (elem args 0) (elem args 1) true = true ∧
        check_index (elem args 2) false = true ∧
        check_index (elem args 3) false = true) →
      (Fqrshift L args).events = [] ∧
      ((Fqrshift L args).retval = result.fail octave_error.print_usage ∨
       (Fqrshift L args).retval =
        result.fail (octave_error.error "qrshift: dimensions mismatch") ∨
       (Fqrshift L args).retval =
        result.fail (octave_error.error "qrshift: invalid index I or J"))) := by
  refine ⟨?_, ?_, ?_, ?_⟩
  · intro h
    have hev : (Fqrupdate L args).events = [] := by
      by_contra hne
      exact h ((Fqrupdate_validation L args).1 hne)
    exact ⟨hev, (Fqrupdate_validation L args).2 hev⟩
  · intro h
    have hev : (Fqrinsert L args).events = [] := by
      by_contra hne
      exact h ((Fqrinsert_validation L args).1 hne)
    exact ⟨hev, (Fqrinsert_validation L args).2 hev⟩
  · intro h
    have hev : (Fqrdelete L args).events = [] := by
      by_contra hne
      exact h ((Fqrdelete_validation L args).1 hne)
    exact ⟨hev, (Fqrdelete_validation L args).2 hev⟩
  · intro h
    have hev : (Fqrshift L args).events = [] := by
      by_contra hne
      exact h ((Fqrshift_validation L args).1 hne)
    exact ⟨hev, (Fqrshift_validation L args).2 hev⟩

/-- C22 at a call that fails the last check of `qrshift`: with a full
factorization of a 5×3 matrix and a complex first index the call has no
event. -/
theorem validation_precedes_engine_witness :
    (Fqrshift lib_std
      [real_matrix 5 5, real_matrix 5 3, complex_scalar 2, index_scalar 3]).events = [] :=
  ((validation_precedes_engine lib_std
      [real_matrix 5 5, real_matrix 5 3, complex_scalar 2, index_scalar 3]).2.2.2
    (by decide)).1

/-! ## The sparse branch of `qr` -/

/-- C23: `[c, r] = qr (a, b, 0)` for a sparse 3×2 matrix `a` and a full 3×1
matrix `b` returns the economy-sized `R`, and a first value `C` that is
computed from the third argument, the scalar 0, not from the second argument
`b`: with three arguments and a final 0 the index `have_b` of the right-hand
side is set to 2. -/
theorem Fqr_sparse_rhs_is_the_flag :
    sparse_have_b [sparse_matrix 3 2, real_matrix 3 1, real_scalar 0] = 2 ∧
    Fqr lib_std [sparse_matrix 3 2, real_matrix 3 1, real_scalar 0] 2 =
      ⟨[event.construct (factorization.sparse_qr MT.SparseMatrix (sparse_matrix 3 2))],
        result.ok
          [value.C (factorization.sparse_qr MT.SparseMatrix (sparse_matrix 3 2))
              (real_scalar 0),
           value.sparse_R (factorization.sparse_qr MT.SparseMatrix (sparse_matrix 3 2))
              true]⟩ ∧
    (Fqr lib_std [sparse_matrix 3 2, real_matrix 3 1, real_scalar 0] 2).retval ≠
      result.ok
        [value.C (factorization.sparse_qr MT.SparseMatrix (sparse_matrix 3 2))
            (real_matrix 3 1),
         value.sparse_R (factorization.sparse_qr MT.SparseMatrix (sparse_matrix 3 2))
            true] := by
  decide

/-- The function `qr` on a sparse first argument that passes the count and
empty checks is its sparse branch. -/
theorem Fqr_sparse_eq (L : lib) (a : octave_value) (rest : List octave_value)
    (nargout : Int) (hs : a.is_sparse_type = true) (hcount : (a :: rest).length ≤ 3)
    (he : 0 ≤ L.empty_arg a.rows a.columns) :
    Fqr L (a :: rest) nargout = Fqr_sparse (a :: rest) a nargout := by
  have h1 : ¬ ((((a :: rest).length : Nat) : Int) < 1) := by
    simp only [List.length_cons]; omega
  have h2 : ¬ ((((a :: rest).length : Nat) : Int) > 3) := by omega
  have h3 : ¬ (L.empty_arg a.rows a.columns < 0) := by omega
  unfold Fqr
  simp only [elem, List.getD_cons_zero, hs, if_true, h1, h2, h3, or_self, if_false]

/-- The values returned for a sparse first argument that passes the count and
empty checks. With the argument at the position `have_b` as right-hand side
the values returned are exactly `C` of it and `R`, whatever the number of
requested outputs; without one they are
`Q` and `R` when more than one output is requested and `R` alone otherwise.
With exactly two arguments the second is the economy flag if it is a scalar
whose integer value is 0, and the right-hand side otherwise. With three
arguments the right-hand side is the argument at the position `have_b`: the
second argument, unless the third is a scalar 0. -/
theorem Fqr_sparse_results (L : lib) (a : octave_value) (nargout : Int)
    (hs : a.is_sparse_type = true) (he : 0 ≤ L.empty_arg a.rows a.columns) :
    (∃ q, (q = factorization.sparse_qr MT.SparseMatrix a ∨
          q = factorization.sparse_qr MT.SparseComplexMatrix a) ∧
      (Fqr L [a] nargout).retval =
        if nargout > 1 then result.ok [value.sparse_Q q, value.sparse_R q false]
        else result.ok [value.sparse_R q false]) ∧
    (∀ b : octave_value, b.is_scalar_type = true → b.int_value = 0 →
      ∃ q, (q = factorization.sparse_qr MT.SparseMatrix a ∨
          q = factorization.sparse_qr MT.SparseComplexMatrix a) ∧
        (Fqr L [a, b] nargout).retval =
          if nargout > 1 then result.ok [value.sparse_Q q, value.sparse_R q true]
          else result.ok [value.sparse_R q true]) ∧
    (∀ b : octave_value, ¬ (b.is_scalar_type = true ∧ b.int_value = 0) →
      ∃ q, (q = factorization.sparse_qr MT.SparseMatrix a ∨
          q = factorization.sparse_qr MT.SparseComplexMatrix a) ∧
        (Fqr L [a, b] nargout).retval =
          result.ok [value.C q b, value.sparse_R q false]) ∧
    (∀ b c : octave_value,
      ∃ q, (q = factorization.sparse_qr MT.SparseMatrix a ∨
          q = factorization.sparse_qr MT.SparseComplexMatrix a) ∧
        (Fqr L [a, b, c] nargout).retval =
          result.ok
            [value.C q (elem [a, b, c] (sparse_have_b [a, b, c])),
             value.sparse_R q (sparse_economy [a, b, c])] ∧
        sparse_have_b [a, b, c] =
          (if c.is_scalar_type = true ∧ c.int_value = 0 then 2 else 1) ∧
        sparse_economy [a, b, c] =
          decide (c.is_scalar_type = true ∧ c.int_value = 0)) := by
  have hq : ∀ args : List octave_value,
      factorization.sparse_qr
          (if sparse_is_cmplx args a = true then MT.SparseComplexMatrix
           else MT.SparseMatrix) a = factorization.sparse_qr MT.SparseMatrix a ∨
      factorization.sparse_qr
          (if sparse_is_cmplx args a = true then MT.SparseComplexMatrix
           else MT.SparseMatrix) a = factorization.sparse_qr MT.SparseComplexMatrix a := by
    intro args
    cases sparse_is_cmplx args a <;> simp
  refine ⟨?_, ?_, ?_, ?_⟩
  · refine ⟨_, hq [a], ?_⟩
    rw [Fqr_sparse_eq L a [] nargout hs (by simp) he]
    by_cases h : nargout > 1 <;>
      simp [Fqr_sparse, sparse_have_b, sparse_economy, h]
  · intro b hb1 hb2
    refine ⟨_, hq [a, b], ?_⟩
    rw [Fqr_sparse_eq L a [b] nargout hs (by simp) he]
    by_cases h : nargout > 1 <;>
      simp [Fqr_sparse, sparse_have_b, sparse_economy, elem, hb1, hb2, h]
  · intro b hb
    refine ⟨_, hq [a, b], ?_⟩
    rw [Fqr_sparse_eq L a [b] nargout hs (by simp) he]
    have hb' : (b.is_scalar_type && b.int_value == 0) = false := by
      cases h1 : b.is_scalar_type
      · simp
      · simp only [h1, true_and] at hb
        simp [hb]
    simp [Fqr_sparse, sparse_have_b, sparse_economy, elem, hb']
  · intro b c
    refine ⟨_, hq [a, b, c], ?_, ?_, ?_⟩
    · rw [Fqr_sparse_eq L a [b, c] nargout hs (by simp) he]
      have hpos : sparse_have_b [a, b, c] > 0 := by
        cases h1 : c.is_scalar_type <;> by_cases h2 : c.int_value = 0 <;>
          simp [sparse_have_b, elem, h1, h2]
      simp [Fqr_sparse, hpos]
    · simp only [sparse_have_b, elem]
      cases h1 : c.is_scalar_type <;> by_cases h2 : c.int_value = 0 <;> simp [h1, h2]
    · simp only [sparse_economy, elem]
      cases h1 : c.is_scalar_type <;> by_cases h2 : c.int_value = 0 <;> simp [h1, h2]

/-- At a sparse 3×2 matrix: `qr (a, 0)` with one output is the economy-sized
`R` alone, and `[c, r] = qr (a, b)` is `C` of `b` and the full `R`. -/
theorem Fqr_sparse_results_witness :
    (Fqr lib_std [sparse_matrix 3 2, real_scalar 0] 1).retval =
      result.ok
        [value.sparse_R (factorization.sparse_qr MT.SparseMatrix (sparse_matrix 3 2))
          true] ∧
    (Fqr lib_std [sparse_matrix 3 2, real_matrix 3 1] 2).retval =
      result.ok
        [value.C (factorization.sparse_qr MT.SparseMatrix (sparse_matrix 3 2))
          (real_matrix 3 1),
         value.sparse_R (factorization.sparse_qr MT.SparseMatrix (sparse_matrix 3 2))
          false] := by
  have h := Fqr_sparse_results lib_std (sparse_matrix 3 2)
  obtain ⟨q1, -, h1⟩ := (h 1 rfl (by decide)).2.1 (real_scalar 0) rfl rfl
  obtain ⟨q2, -, h2⟩ := (h 2 rfl (by decide)).2.2.1 (real_matrix 3 1) (by decide)
  exact ⟨by decide, by decide⟩

/-- C24: with a sparse first argument and three arguments of which the last
is a scalar 0, the right-hand side `B` is present, and yet the first value
returned is not `C` of `B`: for every number of requested outputs it is `C`
of the last argument, the flag, and the whole call is the same whatever the
second argument is. -/
theorem Fqr_sparse_flag_taken_as_rhs (L : lib) (a b c : octave_value) (nargout : Int)
    (hs : a.is_sparse_type = true) (he : 0 ≤ L.empty_arg a.rows a.columns)
    (hc1 : c.is_scalar_type = true) (hc2 : c.int_value = 0) :
    (Fqr L [a, b, c] nargout).retval =
      result.ok
        [value.C
            (factorization.sparse_qr
              (if c.is_complex_type || a.is_complex_type then MT.SparseComplexMatrix
               else MT.SparseMatrix) a) c,
         value.sparse_R
            (factorization.sparse_qr
              (if c.is_complex_type || a.is_complex_type then MT.SparseComplexMatrix
               else MT.SparseMatrix) a) true] ∧
    ∀ b2 : octave_value, Fqr L [a, b2, c] nargout = Fqr L [a, b, c] nargout := by
  have hb : ∀ x : octave_value, sparse_have_b [a, x, c] = 2 := by
    intro x
    simp [sparse_have_b, elem, hc1, hc2]
  have hcm : ∀ x : octave_value,
      sparse_is_cmplx [a, x, c] a = (c.is_complex_type || a.is_complex_type) := by
    intro x
    cases h1 : c.is_complex_type <;> cases h2 : a.is_complex_type <;>
      simp [sparse_is_cmplx, sparse_have_b, elem, hc1, hc2, h1, h2]
  have hec : ∀ x : octave_value, sparse_economy [a, x, c] = true := by
    intro x
    simp [sparse_economy, elem, hc1, hc2]
  have hF : ∀ x : octave_value, Fqr L [a, x, c] nargout =
      ⟨event.construct
          (factorization.sparse_qr
            (if c.is_complex_type || a.is_complex_type then MT.SparseComplexMatrix
             else MT.SparseMatrix) a) ::
          (if a.rows < a.columns then [event.warning warn_under_determined] else []),
        result.ok
          [value.C
              (factorization.sparse_qr
                (if c.is_complex_type || a.is_complex_type then MT.SparseComplexMatrix
                 else MT.SparseMatrix) a) c,
           value.sparse_R
              (factorization.sparse_qr
                (if c.is_complex_type || a.is_complex_type then MT.SparseComplexMatrix
                 else MT.SparseMatrix) a) true]⟩ := by
    intro x
    rw [Fqr_sparse_eq L a [x, c] nargout hs (by simp) he]
    simp only [Fqr_sparse, hb x, hcm x, hec x]
    simp [elem]
  refine ⟨by rw [hF b], ?_⟩
  intro b2
  rw [hF b2, hF b]

/-- C24 at `r = qr (a, b, 0)` and `[c, r] = qr (a, b, 0)` for a sparse 3×2
matrix `a` and a full 3×1 matrix `b`: with one requested output as with two,
the values returned are `C` of the scalar 0 and the economy-sized `R`. -/
theorem Fqr_sparse_flag_taken_as_rhs_witness :
    (Fqr lib_std [sparse_matrix 3 2, real_matrix 3 1, real_scalar 0] 1).retval =
      result.ok
        [value.C (factorization.sparse_qr MT.SparseMatrix (sparse_matrix 3 2))
            (real_scalar 0),
         value.sparse_R (factorization.sparse_qr MT.SparseMatrix (sparse_matrix 3 2))
            true] ∧
    Fqr lib_std [sparse_matrix 3 2, real_matrix 3 4, real_scalar 0] 2 =
      Fqr lib_std [sparse_matrix 3 2, real_matrix 3 1, real_scalar 0] 2 :=
  ⟨(Fqr_sparse_flag_taken_as_rhs lib_std (sparse_matrix 3 2) (real_matrix 3 1)
      (real_scalar 0) 1 rfl (by decide) rfl rfl).1,
   (Fqr_sparse_flag_taken_as_rhs lib_std (sparse_matrix 3 2) (real_matrix 3 1)
      (real_scalar 0) 2 rfl (by decide) rfl rfl).2 (real_matrix 3 4)⟩

/-! ## Integer conversions -/

/-- A negative value is rounded to an integer that is not positive. -/
theorem octave_int_round_neg (x : ℚ) (h : x < 0) : octave_int_round x ≤ 0 := by
  unfold octave_int_round
  rw [if_neg (not_le.mpr h)]
  have h1 : (0 : ℤ) ≤ Rat.floor (-x + 1 / 2) := Rat.le_floor.mpr (by push_cast; linarith)
  omega

/-- A value that is not negative is rounded to the integer `n` with
`n ≤ x + 1/2 < n + 1`, which is not negative. -/
theorem octave_int_round_nonneg (x : ℚ) (h : 0 ≤ x) :
    ((octave_int_round x : ℤ) : ℚ) ≤ x + 1 / 2 ∧ x + 1 / 2 < (octave_int_round x : ℤ) + 1 ∧
      0 ≤ octave_int_round x := by
  unfold octave_int_round
  rw [if_pos h]
  have e : Rat.floor (x + 1 / 2) = ⌊x + 1 / 2⌋ := rfl
  rw [e]
  refine ⟨Int.floor_le _, Int.lt_floor_add_one _, Int.floor_nonneg.mpr (by linarith)⟩

/-- Every negative value is converted to 0. -/
theorem octave_uint_convert_neg (N : Nat) (x : ℚ) (h : x < 0) :
    octave_uint_convert N x = 0 := by
  have h1 := octave_int_round_neg x h
  unfold octave_uint_convert
  by_cases h2 : octave_int_round x < 0
  · simp [h2]
  · have h3 : octave_int_round x = 0 := by omega
    have h4 : (0 : ℤ) ≤ 2 ^ N - 1 := by
      have : (1 : ℤ) ≤ 2 ^ N := one_le_pow₀ (by norm_num)
      omega
    rw [if_neg h2, h3, if_neg (by omega)]
    rfl

/-- Every value above the largest value of the type is converted to that
largest value. -/
theorem octave_uint_convert_above (N : Nat) (x : ℚ) (h : (2 : ℚ) ^ N - 1 < x) :
    octave_uint_convert N x = 2 ^ N - 1 := by
  have hpos : (1 : ℚ) ≤ 2 ^ N := one_le_pow₀ (by norm_num)
  have hx : 0 ≤ x := by linarith
  obtain ⟨h1, h2, h3⟩ := octave_int_round_nonneg x hx
  have h4 : ((2 ^ N - 1 : ℤ) : ℚ) < (octave_int_round x : ℤ) + 1 := by
    push_cast; linarith
  have h5 : (2 ^ N - 1 : ℤ) ≤ octave_int_round x := by
    have : (2 ^ N - 1 : ℤ) < octave_int_round x + 1 := by exact_mod_cast h4
    omega
  unfold octave_uint_convert
  rw [if_neg (by omega)]
  by_cases h6 : octave_int_round x > 2 ^ N - 1
  · simp [h6]
  · have h7 : octave_int_round x = 2 ^ N - 1 := by omega
    rw [if_neg h6, h7]
    have : (1 : ℤ) ≤ 2 ^ N := one_le_pow₀ (by norm_num)
    have h8 : ((2 ^ N - 1 : ℕ) : ℤ) = 2 ^ N - 1 := by
      have : (1 : ℕ) ≤ 2 ^ N := one_le_pow₀ (by norm_num)
      push_cast [Nat.cast_sub this]; ring
    omega

/-- Within the range of the type the conversion is the rounding. -/
theorem octave_uint_convert_inrange (N : Nat) (x : ℚ) (h0 : 0 ≤ x)
    (h1 : x ≤ 2 ^ N - 1) :
    ((octave_uint_convert N x : ℕ) : ℤ) = octave_int_round x := by
  obtain ⟨h2, h3, h4⟩ := octave_int_round_nonneg x h0
  have h5 : ((octave_int_round x : ℤ) : ℚ) < ((2 ^ N : ℤ) : ℚ) := by
    push_cast; linarith
  have h6 : octave_int_round x < 2 ^ N := by exact_mod_cast h5
  unfold octave_uint_convert
  rw [if_neg (by omega), if_neg (by omega)]
  exact Int.toNat_of_nonneg h4


/-- Within the range of the type, a value `x` with `n ≤ x + 1/2 < n + 1` is
converted to `n`. -/
theorem octave_uint_convert_eq (N : Nat) (x : ℚ) (n : Nat) (h0 : 0 ≤ x)
    (h1 : x ≤ 2 ^ N - 1) (hn1 : (n : ℚ) ≤ x + 1 / 2) (hn2 : x + 1 / 2 < n + 1) :
    octave_uint_convert N x = n := by
  have h := octave_uint_convert_inrange N x h0 h1
  obtain ⟨h2, h3, h4⟩ := octave_int_round_nonneg x h0
  have a : octave_int_round x < (n : ℤ) + 1 := by
    have : ((octave_int_round x : ℤ) : ℚ) < (((n : ℤ) + 1 : ℤ) : ℚ) := by
      push_cast; linarith
    exact_mod_cast this
  have b : (n : ℤ) < octave_int_round x + 1 := by
    have : (((n : ℤ)) : ℚ) < ((octave_int_round x + 1 : ℤ) : ℚ) := by
      push_cast; linarith
    exact_mod_cast this
  omega

/-- C25: for every real `x`, `uint8 (x)` and `uint32 (x)` have class uint8
and uint32, and their value is the integer nearest to `x`, a tie going away
from zero, saturated to the range from 0 to `2^N - 1` of the type: every
negative `x` gives 0, every `x` above `2^N - 1` gives `2^N - 1`, and an `x`
in between gives the integer `n` with `x - 1/2 < n ≤ x + 1/2`. In particular
1.5 gives 2, 1.25 gives 1, -1.5 gives 0, `2^9` and `2^33` give the largest
value and `-2^9` and `-2^33` give 0. -/
theorem uint_conversion (x : ℚ) :
    (Fuint8 x).class_name = "uint8" ∧ (Fuint32 x).class_name = "uint32" ∧
    (Fuint8 x).value = octave_uint_convert 8 x ∧
    (Fuint32 x).value = octave_uint_convert 32 x ∧
    (∀ N : Nat,
      (x < 0 → octave_uint_convert N x = 0) ∧
      ((2 : ℚ) ^ N - 1 < x → octave_uint_convert N x = 2 ^ N - 1) ∧
      (0 ≤ x → x ≤ 2 ^ N - 1 →
        x - 1 / 2 < (octave_uint_convert N x : ℚ) ∧
        (octave_uint_convert N x : ℚ) ≤ x + 1 / 2)) ∧
    (Fuint8 (3 / 2) = ⟨"uint8", 2⟩ ∧ Fuint8 (5 / 4) = ⟨"uint8", 1⟩ ∧
      Fuint8 (-3 / 2) = ⟨"uint8", 0⟩ ∧ Fuint8 (2 ^ 9) = ⟨"uint8", 2 ^ 8 - 1⟩ ∧
      Fuint8 (-2 ^ 9) = ⟨"uint8", 0⟩) ∧
    (Fuint32 (3 / 2) = ⟨"uint32", 2⟩ ∧ Fuint32 (5 / 4) = ⟨"uint32", 1⟩ ∧
      Fuint32 (-3 / 2) = ⟨"uint32", 0⟩ ∧ Fuint32 (2 ^ 33) = ⟨"uint32", 2 ^ 32 - 1⟩ ∧
      Fuint32 (-2 ^ 33) = ⟨"uint32", 0⟩) := by
  refine ⟨rfl, rfl, rfl, rfl, ?_, ?_, ?_⟩
  · intro N
    refine ⟨octave_uint_convert_neg N x, octave_uint_convert_above N x, ?_⟩
    intro h0 h1
    have h := octave_uint_convert_inrange N x h0 h1
    obtain ⟨h2, h3, -⟩ := octave_int_round_nonneg x h0
    have e : ((octave_uint_convert N x : ℕ) : ℚ) = ((octave_int_round x : ℤ) : ℚ) := by
      rw [← h]; push_cast; rfl
    rw [e]
    constructor <;> linarith
  · refine ⟨?_, ?_, ?_, ?_, ?_⟩
    · simp only [Fuint8, octave_uint_convert_eq 8 (3 / 2) 2 (by norm_num) (by norm_num)
        (by norm_num) (by norm_num)]
    · simp only [Fuint8, octave_uint_convert_eq 8 (5 / 4) 1 (by norm_num) (by norm_num)
        (by norm_num) (by norm_num)]
    · simp only [Fuint8, octave_uint_convert_neg 8 (-3 / 2) (by norm_num)]
    · simp only [Fuint8, octave_uint_convert_above 8 (2 ^ 9) (by norm_num)]
    · simp only [Fuint8, octave_uint_convert_neg 8 (-2 ^ 9) (by norm_num)]
  · refine ⟨?_, ?_, ?_, ?_, ?_⟩
    · simp only [Fuint32, octave_uint_convert_eq 32 (3 / 2) 2 (by norm_num) (by norm_num)
        (by norm_num) (by norm_num)]
    · simp only [Fuint32, octave_uint_convert_eq 32 (5 / 4) 1 (by norm_num) (by norm_num)
        (by norm_num) (by norm_num)]
    · simp only [Fuint32, octave_uint_convert_neg 32 (-3 / 2) (by norm_num)]
    · simp only [Fuint32, octave_uint_convert_above 32 (2 ^ 33) (by norm_num)]
    · simp only [Fuint32, octave_uint_convert_neg 32 (-2 ^ 33) (by norm_num)]

/-! ## Precision and domain of the update functions -/

/-- The class chosen by `update_class` is a single-precision class exactly when
the inner test holds. -/
theorem update_class_single (real single : Bool) :
    (update_class real single).is_single_class = single := by
  cases real <;> cases single <;> rfl

/-- The class chosen by `update_class` is a real class exactly when the outer
test holds. -/
theorem update_class_real (real single : Bool) :
    (update_class real single).is_real_class = real := by
  cases real <;> cases single <;> rfl

/-- The precision rules of the update functions, on arguments that pass the
checks: `qrupdate`, `qrinsert` and `qrdelete` work in single precision as soon
as one of their matrix operands is single, `qrshift` only when both `Q` and
`R` are. -/
theorem update_precision_rules (L : lib) (q r : octave_value)
    (hq : q.is_numeric_type = true) (hr : r.is_numeric_type = true)
    (hd : check_qr_dims q r true = true) :
    (∀ u v : octave_value, u.is_numeric_type = true → v.is_numeric_type = true →
      ∃ T, Fqrupdate L [q, r, u, v] = apply_engine L T q r (operation.update u v) ∧
        (T.is_single_class = true ↔
          q.is_single_type = true ∨ r.is_single_type = true ∨
            u.is_single_type = true ∨ v.is_single_type = true)) ∧
    (∀ j x : octave_value, x.is_numeric_type = true → check_index j true = true →
      ∃ T op, Fqrinsert L [q, r, j, x] = apply_engine L T q r op ∧
        (T.is_single_class = true ↔
          q.is_single_type = true ∨ r.is_single_type = true ∨
            x.is_single_type = true)) ∧
    (∀ j : octave_value, check_index j true = true →
      ∃ T op, Fqrdelete L [q, r, j] = apply_engine L T q r op ∧
        (T.is_single_class = true ↔
          q.is_single_type = true ∨ r.is_single_type = true)) ∧
    (∀ i j : octave_value, check_index i false = true → check_index j false = true →
      ∃ T op, Fqrshift L [q, r, i, j] = apply_engine L T q r op ∧
        (T.is_single_class = true ↔
          q.is_single_type = true ∧ r.is_single_type = true)) := by
  refine ⟨?_, ?_, ?_, ?_⟩
  · intro u v hu hv
    exact ⟨_, by rw [Fqrupdate_eq L q r u v hq hr hu hv, if_pos hd], by rw [update_class_single]; simp [or_assoc]⟩
  · intro j x hx hi
    exact ⟨_, _, by rw [Fqrinsert_col_eq L q r j x hq hr hx, if_pos hd, if_pos hi], by rw [update_class_single]; simp [or_assoc]⟩
  · intro j hi
    exact ⟨_, _, by rw [Fqrdelete_col_eq L q r j hq hr, if_pos hd, if_pos hi], by rw [update_class_single]; simp⟩
  · intro i j hi hj
    exact ⟨_, _, by rw [Fqrshift_eq L q r i j hq hr, if_pos hd, if_pos ⟨hi, hj⟩], by rw [update_class_single]; simp⟩

/-- C26: for a single-precision `Q` and a double-precision `R` of size 3×3,
`qrshift (Q, R, 1, 2)` constructs the double-precision factorization
`qr<Matrix>`, while `qrdelete (Q, R, 1)` constructs the single-precision
factorization `qr<FloatMatrix>` from the same pair: `qrshift` asks whether
`Q` and `R` are both single, the other update functions whether one of the
operands is. -/
theorem qrshift_mixed_pair_is_double :
    (Fqrshift lib_std
        [single_matrix 3 3, real_matrix 3 3, index_scalar 1, index_scalar 2]).events =
      [event.construct
          (factorization.from_QR MT.Matrix (single_matrix 3 3) (real_matrix 3 3)),
        event.invoke (operation.shift_cols 0 1)] ∧
    (Fqrdelete lib_std [single_matrix 3 3, real_matrix 3 3, index_scalar 1]).events =
      [event.construct
          (factorization.from_QR MT.FloatMatrix (single_matrix 3 3) (real_matrix 3 3)),
        event.invoke (operation.delete_col [0])] := by
  constructor
  · rw [Fqrshift_eq lib_std _ _ _ _ rfl rfl]
    rfl
  · rw [Fqrdelete_col_eq lib_std _ _ _ rfl rfl]
    rfl

/-- C27: in `qrupdate`, `qrinsert`, `qrdelete` and `qrshift`, on arguments that
pass the checks, the factorization is constructed in a real matrix class if
and only if every matrix operand the function inspects is of real type:
`Q`, `R`, `u`, `v` for `qrupdate`, `Q`, `R`, `x` for both forms of
`qrinsert`, `Q` and `R` for both forms of `qrdelete` and for `qrshift`. As
soon as one of them is not real the class is a complex one. -/
theorem real_path_rule (L : lib) (q r : octave_value)
    (hq : q.is_numeric_type = true) (hr : r.is_numeric_type = true) :
    (∀ u v : octave_value, u.is_numeric_type = true → v.is_numeric_type = true →
      check_qr_dims q r true = true →
      ∃ T, Fqrupdate L [q, r, u, v] = apply_engine L T q r (operation.update u v) ∧
        (T.is_real_class = true ↔
          q.is_real_type = true ∧ r.is_real_type = true ∧
            u.is_real_type = true ∧ v.is_real_type = true)) ∧
    (∀ j x : octave_value, x.is_numeric_type = true →
      check_qr_dims q r true = true → check_index j true = true →
      ∃ T op, Fqrinsert L [q, r, j, x] = apply_engine L T q r op ∧
        (T.is_real_class = true ↔
          q.is_real_type = true ∧ r.is_real_type = true ∧ x.is_real_type = true)) ∧
    (∀ j x o : octave_value, x.is_numeric_type = true → o.is_string = true →
      o.string_value = "row" → check_qr_dims q r false = true → x.rows = 1 →
      check_index j false = true →
      ∃ T op, Fqrinsert L [q, r, j, x, o] = apply_engine L T q r op ∧
        (T.is_real_class = true ↔
          q.is_real_type = true ∧ r.is_real_type = true ∧ x.is_real_type = true)) ∧
    (∀ j : octave_value, check_qr_dims q r true = true → check_index j true = true →
      ∃ T op, Fqrdelete L [q, r, j] = apply_engine L T q r op ∧
        (T.is_real_class = true ↔ q.is_real_type = true ∧ r.is_real_type = true)) ∧
    (∀ j o : octave_value, o.is_string = true → o.string_value = "row" →
      check_qr_dims q r false = true → check_index j false = true →
      ∃ T op, Fqrdelete L [q, r, j, o] = apply_engine L T q r op ∧
        (T.is_real_class = true ↔ q.is_real_type = true ∧ r.is_real_type = true)) ∧
    (∀ i j : octave_value, check_qr_dims q r true = true →
      check_index i false = true → check_index j false = true →
      ∃ T op, Fqrshift L [q, r, i, j] = apply_engine L T q r op ∧
        (T.is_real_class = true ↔ q.is_real_type = true ∧ r.is_real_type = true)) := by
  refine ⟨?_, ?_, ?_, ?_, ?_, ?_⟩
  · intro u v hu hv hd
    exact ⟨_, by rw [Fqrupdate_eq L q r u v hq hr hu hv, if_pos hd], by rw [update_class_real]; simp [and_assoc]⟩
  · intro j x hx hd hi
    exact ⟨_, _, by rw [Fqrinsert_col_eq L q r j x hq hr hx, if_pos hd, if_pos hi], by rw [update_class_real]; simp [and_assoc]⟩
  · intro j x o hx ho hrow hd hx1 hi
    exact ⟨_, _, by rw [Fqrinsert_row_eq L q r j x o hq hr hx ho hrow, if_pos ⟨hd, hx1⟩, if_pos hi], by rw [update_class_real]; simp [and_assoc]⟩
  · intro j hd hi
    exact ⟨_, _, by rw [Fqrdelete_col_eq L q r j hq hr, if_pos hd, if_pos hi], by rw [update_class_real]; simp⟩
  · intro j o ho hrow hd hi
    exact ⟨_, _, by rw [Fqrdelete_row_eq L q r j o hq hr ho hrow, if_pos hd, if_pos hi], by rw [update_class_real]; simp⟩
  · intro i j hd hi hj
    exact ⟨_, _, by rw [Fqrshift_eq L q r i j hq hr, if_pos hd, if_pos ⟨hi, hj⟩], by rw [update_class_real]; simp⟩

/-- C27 at a full factorization of a 5×3 matrix: inserting a complex column
into a real pair constructs `qr<ComplexMatrix>`, and deleting a column of a
real pair constructs `qr<Matrix>`. -/
theorem real_path_rule_witness :
    (Fqrinsert lib_std
        [real_matrix 5 5, real_matrix 5 3, index_scalar 2, complex_matrix 5 1]).events =
      [event.construct
          (factorization.from_QR MT.ComplexMatrix (real_matrix 5 5) (real_matrix 5 3)),
        event.invoke (operation.insert_col (complex_matrix 5 1) [1])] ∧
    (Fqrdelete lib_std [real_matrix 5 5, real_matrix 5 3, index_scalar 2]).events =
      [event.construct
          (factorization.from_QR MT.Matrix (real_matrix 5 5) (real_matrix 5 3)),
        event.invoke (operation.delete_col [1])] := by
  have h := real_path_rule lib_std (real_matrix 5 5) (real_matrix 5 3) rfl rfl
  obtain ⟨T, op, h1, h2⟩ := h.2.1 (index_scalar 2) (complex_matrix 5 1) rfl (by decide)
    (by decide)
  constructor
  · rw [Fqrinsert_col_eq lib_std _ _ _ _ rfl rfl rfl]
    rfl
  · rw [Fqrdelete_col_eq lib_std _ _ _ rfl rfl]
    rfl

/-- The helper `check_qr_dims` spelled out as a proposition. -/
theorem check_qr_dims_iff (q r : octave_value) (allow_ecf : Bool) :
    check_qr_dims q r allow_ecf = true ↔
      q.ndims = 2 ∧ r.ndims = 2 ∧ r.rows = q.columns ∧
        (q.rows = r.rows ∨ (allow_ecf = true ∧ r.rows = r.columns ∧ r.rows < q.rows)) := by
  simp only [check_qr_dims, Bool.and_eq_true, Bool.or_eq_true, beq_iff_eq,
    decide_eq_true_eq]
  tauto

/-- C28: whenever `check_qr_dims` accepts a pair `(Q, R)`, with economized
factorizations allowed or not, the row count of `R` is the column count of
`Q`, so that `Q*R` is conformable, `Q` has at least as many rows as columns,
and the pair is accepted with economized factorizations allowed. -/
theorem check_qr_dims_accepts (q r : octave_value) (allow_ecf : Bool)
    (h : check_qr_dims q r allow_ecf = true) :
    r.rows = q.columns ∧ q.columns ≤ q.rows ∧ check_qr_dims q r true = true := by
  have hc := (check_qr_dims_iff q r allow_ecf).1 h
  obtain ⟨h1, h2, h3, h4⟩ := hc
  refine ⟨h3, ?_, (check_qr_dims_iff q r true).2 ⟨h1, h2, h3, ?_⟩⟩
  · rcases h4 with h4 | ⟨-, -, h4⟩ <;> omega
  · rcases h4 with h4 | ⟨-, h5, h4⟩
    · left; exact h4
    · right; exact ⟨rfl, h5, h4⟩

/-- C28 at a full pair checked without, and an economized pair checked with,
economized factorizations allowed. -/
theorem check_qr_dims_accepts_witness :
    ((real_matrix 5 3).rows = (real_matrix 5 5).columns ∧
      (real_matrix 5 5).columns ≤ (real_matrix 5 5).rows ∧
      check_qr_dims (real_matrix 5 5) (real_matrix 5 3) true = true) ∧
    ((real_matrix 3 3).rows = (real_matrix 5 3).columns ∧
      (real_matrix 5 3).columns ≤ (real_matrix 5 3).rows ∧
      check_qr_dims (real_matrix 5 3) (real_matrix 3 3) true = true) :=
  ⟨check_qr_dims_accepts (real_matrix 5 5) (real_matrix 5 3) false (by decide),
   check_qr_dims_accepts (real_matrix 5 3) (real_matrix 3 3) true (by decide)⟩

/-! ## The signal check and the control word -/

/-- C29: for every value of the flag `octave_signal_caught` and every handler
that does not itself write the flag: after `octave_quit` returns normally the
flag is 0; `octave_handle_signal` is invoked exactly once, on the state with
the flag already cleared, if the flag was nonzero on entry, and not at all if
it was zero, in which case the state is unchanged; and the macro
`OCTAVE_QUIT` of the C branch does the same as the inline function. -/
theorem octave_quit_effect {σ : Type}
    (octave_handle_signal : signal_state σ → Option (signal_state σ))
    (hframe : ∀ s s' : signal_state σ, octave_handle_signal s = some s' →
      s'.octave_signal_caught = s.octave_signal_caught)
    (s : signal_state σ) :
    (∀ s' : signal_state σ, (octave_quit octave_handle_signal s).final = some s' →
      s'.octave_signal_caught = 0) ∧
    (s.octave_signal_caught ≠ 0 →
      (octave_quit octave_handle_signal s).handled = 1 ∧
      (octave_quit octave_handle_signal s).final =
        octave_handle_signal { s with octave_signal_caught := 0 }) ∧
    (s.octave_signal_caught = 0 →
      (octave_quit octave_handle_signal s).handled = 0 ∧
      (octave_quit octave_handle_signal s).final = some s) ∧
    OCTAVE_QUIT octave_handle_signal s = octave_quit octave_handle_signal s := by
  refine ⟨?_, ?_, ?_, rfl⟩
  · intro s' h
    by_cases h0 : s.octave_signal_caught = 0
    · simp only [octave_quit, h0, ne_eq, not_true_eq_false, if_false, Option.some.injEq] at h
      rw [← h]
      exact h0
    · simp only [octave_quit, ne_eq, h0, not_false_eq_true, if_true] at h
      exact hframe _ _ h
  · intro h0
    simp [octave_quit, h0]
  · intro h0
    simp [octave_quit, h0]

/-- C29 with a handler that returns without changing the state, entered with
the flag set to 1: the handler is invoked once and the flag is 0 at the
return. -/
theorem octave_quit_effect_witness :
    (octave_quit (fun s : signal_state Unit => some s) ⟨1, ()⟩).handled = 1 ∧
    ∀ s' : signal_state Unit,
      (octave_quit (fun s : signal_state Unit => some s) ⟨1, ()⟩).final = some s' →
        s'.octave_signal_caught = 0 :=
  ⟨((octave_quit_effect (fun s : signal_state Unit => some s)
      (fun _ _ h => by cases h; rfl) ⟨1, ()⟩).2.1 (by decide)).1,
   (octave_quit_effect (fun s : signal_state Unit => some s)
      (fun _ _ h => by cases h; rfl) ⟨1, ()⟩).1⟩

/-- C30: for every initial control word, after `octave_set_default_fpucw` the
control word equals `_FPU_DEFAULT`; the word is written, once, only when it
differed from `_FPU_DEFAULT` on entry, and otherwise nothing changes; a
second call changes nothing. -/
theorem octave_set_default_fpucw_effect (_FPU_DEFAULT : Nat) (s : fpu_state) :
    (octave_set_default_fpucw _FPU_DEFAULT s).cw = _FPU_DEFAULT ∧
    (s.cw ≠ _FPU_DEFAULT →
      (octave_set_default_fpucw _FPU_DEFAULT s).written = s.written ++ [_FPU_DEFAULT]) ∧
    (s.cw = _FPU_DEFAULT → octave_set_default_fpucw _FPU_DEFAULT s = s) ∧
    octave_set_default_fpucw _FPU_DEFAULT (octave_set_default_fpucw _FPU_DEFAULT s) =
      octave_set_default_fpucw _FPU_DEFAULT s := by
  by_cases h : s.cw = _FPU_DEFAULT
  · simp [octave_set_default_fpucw, h]
  · simp [octave_set_default_fpucw, h]

/-- C30 on x86 with the control word 0x027f on entry: the default 0x037f is
written once, and a second call writes nothing. -/
theorem octave_set_default_fpucw_effect_witness :
    octave_set_default_fpucw FPU_DEFAULT_x86 ⟨0x027f, []⟩ = ⟨0x037f, [0x037f]⟩ ∧
    octave_set_default_fpucw FPU_DEFAULT_x86
        (octave_set_default_fpucw FPU_DEFAULT_x86 ⟨0x027f, []⟩) =
      ⟨0x037f, [0x037f]⟩ := by
  have h := octave_set_default_fpucw_effect FPU_DEFAULT_x86 ⟨0x027f, []⟩
  refine ⟨by decide, ?_⟩
  rw [h.2.2.2]
  decide

end Octave
